import Mathlib

/-!
# Weather_App — verification of the natural-language lookup pipeline

Shallow embedding of the query-resolution pipeline of the Weather_App
repository:

* `server/utils/lookupDisambiguation.js` — `normalizeLocationText`,
  `isStateLevelQuery` and the US state abbreviation table;
* `server/utils/weatherService.js` — the calendar-day grouping of forecast
  periods inside `fetchWeatherData`, and `estimateFeelsLike`;
* the `POST /lookup` route — `lookupSchema.parse` composed with the route
  handler (intent extraction, location resolution, disambiguation,
  selection validation, response composition);
* `storeOrGetLocation` — the check-then-upsert sequence against the
  `locations` table, modelled as an interleaved two-client state machine.

JavaScript strings become `String`, JSON numbers become `ℚ` (the
floating-point `estimateFeelsLike` formulas are modelled over `ℝ`),
`undefined`/`null` become `Option`, and JS truthiness (`||`, `?:`, `!x`)
is rendered by explicit helpers (`jsTruthy`, `jsOrStr`, `jsOrQ`).
String methods (`trim`, `toLowerCase`, `replace(/\./g,'')`,
`replace(/\s+/g,' ')`, `split('T')[0]`) are implemented over the
character list so that every definition evaluates by `decide`/`rfl`.
-/

namespace WeatherApp

/-! ## JavaScript-semantics helpers -/

/-- JS string truthiness: `undefined`, `null` and `''` are falsy. -/
def jsTruthy : Option String → Option String
  | some s => if s = "" then none else some s
  | none => none

/-- `a || b` on strings: `b` (as is) when `a` is falsy. -/
def jsOrS (a b : Option String) : Option String :=
  match jsTruthy a with
  | some s => some s
  | none => b

/-- `a || d` with a string literal default. -/
def jsOrStr (a : Option String) (d : String) : String :=
  (jsTruthy a).getD d

/-- `a || d` on numbers: `0` is falsy. -/
def jsOrQ (a : Option ℚ) (d : ℚ) : ℚ :=
  match a with
  | some v => if v = 0 then d else v
  | none => d

/-- `a || d` on integers: `0` is falsy. -/
def jsOrZ (a : Option ℤ) (d : ℤ) : ℤ :=
  match a with
  | some v => if v = 0 then d else v
  | none => d

/-- `Math.round`: round half toward +∞, i.e. `⌊x + 1/2⌋`. -/
def jsRound (q : ℚ) : ℤ := ⌊q + 1/2⌋

/-- `String.prototype.trim()` over the character list. -/
def trimStr (s : String) : String :=
  String.mk (((s.data.dropWhile Char.isWhitespace).reverse.dropWhile Char.isWhitespace).reverse)

/-- `String.prototype.toLowerCase()` (ASCII, as the inputs here are). -/
def toLowerStr (s : String) : String :=
  String.mk (s.data.map Char.toLower)

/-- `replace(/\./g, '')`: drop every period. -/
def stripPeriods (s : String) : String :=
  String.mk (s.data.filter fun c => c ≠ '.')

/-- `replace(/\s+/g, ' ')`: collapse each whitespace run to one space. -/
def collapseWsAux : Bool → List Char → List Char
  | _, [] => []
  | prevWs, c :: rest =>
    if c.isWhitespace then
      if prevWs then collapseWsAux true rest
      else ' ' :: collapseWsAux true rest
    else c :: collapseWsAux false rest

def collapseWs (s : String) : String :=
  String.mk (collapseWsAux false s.data)

/-- `startTime.split('T')[0]`: the prefix before the first `'T'`. -/
def beforeT (s : String) : String :=
  String.mk (s.data.takeWhile fun c => c ≠ 'T')

/-! ## `server/utils/lookupDisambiguation.js` -/

/-- The `address` component object of a Nominatim result. -/
structure Address where
  city : Option String := none
  town : Option String := none
  village : Option String := none
  county : Option String := none
  state : Option String := none
  country : Option String := none
deriving DecidableEq, Repr

/-- A raw Nominatim search/reverse result (the fields the pipeline reads). -/
structure GeocodeCandidate where
  displayName : String := ""
  lat : ℚ := 0
  lon : ℚ := 0
  address : Address := {}
  importance : Option ℚ := none
  osmType : Option String := none
  type : Option String := none
  addresstype : Option String := none
  placeId : Option ℕ := none
deriving DecidableEq, Repr

/-- `US_STATE_ABBREVIATIONS`: full state name (lowercase) to abbreviation. -/
def usStateAbbreviations : List (String × String) :=
  [("alabama", "al"), ("alaska", "ak"), ("arizona", "az"), ("arkansas", "ar"),
   ("california", "ca"), ("colorado", "co"), ("connecticut", "ct"), ("delaware", "de"),
   ("florida", "fl"), ("georgia", "ga"), ("hawaii", "hi"), ("idaho", "id"),
   ("illinois", "il"), ("indiana", "in"), ("iowa", "ia"), ("kansas", "ks"),
   ("kentucky", "ky"), ("louisiana", "la"), ("maine", "me"), ("maryland", "md"),
   ("massachusetts", "ma"), ("michigan", "mi"), ("minnesota", "mn"),
   ("mississippi", "ms"), ("missouri", "mo"), ("montana", "mt"), ("nebraska", "ne"),
   ("nevada", "nv"), ("new hampshire", "nh"), ("new jersey", "nj"),
   ("new mexico", "nm"), ("new york", "ny"), ("north carolina", "nc"),
   ("north dakota", "nd"), ("ohio", "oh"), ("oklahoma", "ok"), ("oregon", "or"),
   ("pennsylvania", "pa"), ("rhode island", "ri"), ("south carolina", "sc"),
   ("south dakota", "sd"), ("tennessee", "tn"), ("texas", "tx"), ("utah", "ut"),
   ("vermont", "vt"), ("virginia", "va"), ("washington", "wa"),
   ("west virginia", "wv"), ("wisconsin", "wi"), ("wyoming", "wy"),
   ("district of columbia", "dc")]

/-- `US_STATE_ABBREVIATIONS[normalizedState]` as an object-key lookup. -/
def lookupAbbrev (s : String) : Option String :=
  (usStateAbbreviations.find? fun kv => kv.1 == s).map (·.2)

/-- `result?.importance && result.importance > 0.7` (0 is falsy). -/
def importanceAbove (o : Option ℚ) : Bool :=
  match o with
  | some imp => !(imp == 0) && decide ((0.7 : ℚ) < imp)
  | none => false

/-- `!!stateAbbrev && normalizedQuery === stateAbbrev`. -/
def queryMatchesAbbrev (nq ns : String) : Bool :=
  match lookupAbbrev ns with
  | some ab => nq == ab
  | none => false

/-- `normalizeLocationText`: `String(value || '').trim().toLowerCase()
.replace(/\./g, '').replace(/\s+/g, ' ')`. -/
def normalizeLocationText (value : Option String) : String :=
  collapseWs (stripPeriods (toLowerStr (trimStr (value.getD ""))))

/-- `isStateLevelQuery(locationQuery, result)`, exactly as in
`lookupDisambiguation.js`. -/
def isStateLevelQuery (locationQuery : String) (result : GeocodeCandidate) : Bool :=
  let normalizedQuery := normalizeLocationText (some locationQuery)
  if normalizedQuery == "" then false
  else
    let normalizedState := normalizeLocationText result.address.state
    let normalizedCounty := normalizeLocationText result.address.county
    let normalizedCity :=
      normalizeLocationText (jsOrS result.address.city (jsOrS result.address.town result.address.village))
    let normalizedAddresstype := normalizeLocationText result.addresstype
    if normalizedState == "" then false
    else
      let queryMatchesFullStateName := normalizedQuery == normalizedState
      let queryMatchesStateAbbrev := queryMatchesAbbrev normalizedQuery normalizedState
      let isExplicitStateResult := normalizedAddresstype == "state"
      let looksLikeStateBoundary :=
        (result.type == some "administrative" || result.type == some "boundary"
            || result.osmType == some "relation")
          && importanceAbove result.importance
      let looksLikeCityOrCounty :=
        normalizedQuery == normalizedCity || normalizedQuery == normalizedCounty
      (isExplicitStateResult || looksLikeStateBoundary)
        && (queryMatchesFullStateName || queryMatchesStateAbbrev)
        && !looksLikeCityOrCounty

/-! ## `server/utils/weatherService.js` — forecast grouping

`fetchWeatherData`'s network steps (gridpoint, forecast, hourly) are
oracles; the pure construction of the 7-day `forecast` array from the two
period lists is embedded below as `fetchWeatherForecast`.  The `dateEpoch`
/ `timeEpoch` fields (wall-clock `Date` parsing) are omitted; the
`time`-to-local-hour conversion used by the response composer
(`new Date(h.time).getHours()`, which depends on the server's timezone
database) is passed in as an explicit `getHours` oracle. -/

/-- One NWS forecast period (daily or hourly); `Option` fields are the
`relativeHumidity?.value` style nullable readings. -/
structure ForecastPeriod where
  startTime : String
  isDaytime : Bool := true
  temperature : ℚ := 0
  shortForecast : String := ""
  icon : String := ""
  detailedForecast : String := ""
  windSpeed : String := ""
  windDirection : String := ""
  relativeHumidity : Option ℚ := none
  probabilityOfPrecipitation : Option ℚ := none
  dewpoint : Option ℚ := none
deriving DecidableEq, Repr

/-- `period.startTime.split('T')[0]` — the calendar-day grouping key. -/
def dateKey (p : ForecastPeriod) : String := beforeT p.startTime

/-- A `forecastByDay[date]` bucket: `{ day: null, night: null }`. -/
structure DayBucket where
  day : Option ForecastPeriod := none
  night : Option ForecastPeriod := none
deriving DecidableEq, Repr

/-- Assigning a period to its half of the bucket. -/
def bucketAdd (b : DayBucket) (p : ForecastPeriod) : DayBucket :=
  if p.isDaytime then { b with day := some p } else { b with night := some p }

/-- One `forEach` step of building `forecastByDay` (insertion-ordered keys,
as a JS object iterates them). -/
def insertForecastPeriod (acc : List (String × DayBucket)) (p : ForecastPeriod) :
    List (String × DayBucket) :=
  if (acc.map Prod.fst).contains (dateKey p) then
    acc.map fun kv => if kv.1 == dateKey p then (kv.1, bucketAdd kv.2 p) else kv
  else acc ++ [(dateKey p, bucketAdd {} p)]

def groupForecastByDay (periods : List ForecastPeriod) : List (String × DayBucket) :=
  periods.foldl insertForecastPeriod []

/-- One `forEach` step of building `hourlyByDay`. -/
def insertHourlyPeriod (acc : List (String × List ForecastPeriod)) (p : ForecastPeriod) :
    List (String × List ForecastPeriod) :=
  if (acc.map Prod.fst).contains (dateKey p) then
    acc.map fun kv => if kv.1 == dateKey p then (kv.1, kv.2 ++ [p]) else kv
  else acc ++ [(dateKey p, [p])]

def groupHourlyByDay (periods : List ForecastPeriod) : List (String × List ForecastPeriod) :=
  periods.foldl insertHourlyPeriod []

/-- `hourlyByDay[date] || []`. -/
def hourlyFor (m : List (String × List ForecastPeriod)) (d : String) : List ForecastPeriod :=
  ((m.find? fun kv => kv.1 == d).map (·.2)).getD []

/-- `celsiusToFahrenheit`. -/
def celsiusToFahrenheit (c : ℚ) : ℚ := c * 9 / 5 + 32

/-- The `(t - 32) * 5/9` conversion guarded by JS truthiness of `t`
(`dayPeriod?.temperature ? ... : 0`, so a reading of exactly 0°F maps to 0°C). -/
def tempC0 (t : Option ℚ) : ℚ :=
  match t with
  | some v => if v = 0 then 0 else (v - 32) * 5 / 9
  | none => 0

/-- One element of a day's `hourly` array. -/
structure HourEntry where
  time : String
  tempF : ℚ
  tempC : ℚ
  condition : String
  conditionIcon : String
  windSpeed : String
  windDirection : String
  humidity : ℚ
  chanceOfRain : ℚ
  dewPointF : Option ℚ
  dewPointC : Option ℚ
deriving DecidableEq, Repr

def mkHourEntry (hour : ForecastPeriod) : HourEntry :=
  { time := hour.startTime,
    tempF := hour.temperature,
    tempC := (hour.temperature - 32) * 5 / 9,
    condition := hour.shortForecast,
    conditionIcon := hour.icon,
    windSpeed := hour.windSpeed,
    windDirection := hour.windDirection,
    humidity := jsOrQ hour.relativeHumidity 0,
    chanceOfRain := jsOrQ hour.probabilityOfPrecipitation 0,
    dewPointF :=
      match hour.dewpoint with
      | some c => if c = 0 then none else some (celsiusToFahrenheit c)
      | none => none,
    dewPointC :=
      match hour.dewpoint with
      | some c => if c = 0 then none else some c
      | none => none }

/-- The `day` aggregate of one forecast entry. -/
structure DaySummary where
  maxTempF : ℚ
  maxTempC : ℚ
  minTempF : ℚ
  minTempC : ℚ
  avgTempF : ℚ
  avgTempC : ℚ
  condition : String
  conditionIcon : String
  detailedForecast : String
  windSpeed : String
  windDirection : String
  dailyChanceOfRain : ℚ
deriving DecidableEq, Repr

/-- One element of the `forecast` array (`dateEpoch` omitted, see above). -/
structure DayEntry where
  date : String
  day : DaySummary
  hourly : List HourEntry
deriving DecidableEq, Repr

/-- The body of the `.map(date => ...)` that builds one forecast entry:
`dayPeriod = dayData.day || dayData.night`, `nightPeriod = dayData.night
|| dayData.day`, then the aggregates with `|| 0` fallbacks. -/
def mkForecastEntry (hourlyByDay : List (String × List ForecastPeriod))
    (kv : String × DayBucket) : DayEntry :=
  let dayData := kv.2
  let hourlyData := hourlyFor hourlyByDay kv.1
  let dayPeriod := dayData.day.orElse fun _ => dayData.night
  let nightPeriod := dayData.night.orElse fun _ => dayData.day
  { date := kv.1,
    day :=
      { maxTempF := jsOrQ (dayPeriod.map (·.temperature)) 0,
        maxTempC := tempC0 (dayPeriod.map (·.temperature)),
        minTempF := jsOrQ (nightPeriod.map (·.temperature)) 0,
        minTempC := tempC0 (nightPeriod.map (·.temperature)),
        avgTempF :=
          match dayPeriod, nightPeriod with
          | some dp, some np => (dp.temperature + np.temperature) / 2
          | dp, _ => jsOrQ (dp.map (·.temperature)) 0,
        avgTempC :=
          match dayPeriod, nightPeriod with
          | some dp, some np => ((dp.temperature + np.temperature) / 2 - 32) * 5 / 9
          | _, _ => 0,
        condition := jsOrStr (dayPeriod.map (·.shortForecast)) "Unknown",
        conditionIcon := jsOrStr (dayPeriod.map (·.icon)) "",
        detailedForecast := jsOrStr (dayPeriod.map (·.detailedForecast)) "",
        windSpeed := jsOrStr (dayPeriod.map (·.windSpeed)) "0 mph",
        windDirection := jsOrStr (dayPeriod.map (·.windDirection)) "N",
        dailyChanceOfRain :=
          max (jsOrQ (dayPeriod.bind (·.probabilityOfPrecipitation)) 0)
            (jsOrQ (nightPeriod.bind (·.probabilityOfPrecipitation)) 0) },
    hourly := hourlyData.map mkHourEntry }

/-- `Object.keys(forecastByDay).slice(0, 7).map(date => ...)`: the daily
`forecast` array `fetchWeatherData` returns. -/
def fetchWeatherForecast (periods hourlyPeriods : List ForecastPeriod) : List DayEntry :=
  ((groupForecastByDay periods).take 7).map
    (mkForecastEntry (groupHourlyByDay hourlyPeriods))

/-! ### Specification-side helpers for the grouping claims -/

/-- The distinct elements of a list in first-encounter order (what
`Object.keys` of an insertion-ordered map yields, and what
`[...new Set(l)]` yields). -/
def firstEncounter (l : List String) : List String :=
  l.foldl (fun acc d => if acc.contains d then acc else acc ++ [d]) []

/-- The "day" half recorded for date `d`: the last daytime period whose
start date is `d` (later periods overwrite earlier ones in the bucket). -/
def dayHalf (ps : List ForecastPeriod) (d : String) : Option ForecastPeriod :=
  (ps.filter fun p => dateKey p == d && p.isDaytime).getLast?

/-- The "night" half recorded for date `d`. -/
def nightHalf (ps : List ForecastPeriod) (d : String) : Option ForecastPeriod :=
  (ps.filter fun p => dateKey p == d && !p.isDaytime).getLast?

/-- `half?.probabilityOfPrecipitation?.value || 0`. -/
def popOrZero (o : Option ForecastPeriod) : ℚ :=
  jsOrQ (o.bind (·.probabilityOfPrecipitation)) 0

/-! ## `estimateFeelsLike` (real-valued: the source computes in floats) -/

noncomputable section

/-- `Math.round` over `ℝ`. -/
def jsRoundR (x : ℝ) : ℝ := (⌊x + 1/2⌋ : ℤ)

/-- The NWS wind-chill polynomial, `T = tempF`, `V = windMph`. -/
def windChillFormula (t v : ℝ) : ℝ :=
  35.74 + 0.6215 * t - 35.75 * v ^ (0.16 : ℝ) + 0.4275 * t * v ^ (0.16 : ℝ)

/-- The heat-index polynomial, `H = relative humidity`. -/
def heatIndexFormula (t h : ℝ) : ℝ :=
  -42.379 + 2.04901523 * t + 10.14333127 * h
    - 0.22475541 * t * h - 0.00683783 * t * t
    - 0.05481717 * h * h + 0.00122874 * t * t * h
    + 0.00085282 * t * h * h - 0.00000199 * t * t * h * h

/-- `estimateFeelsLike(tempF, windMph, humidity)` from `weatherService.js`. -/
def estimateFeelsLike (tempF windMph humidity : ℝ) : ℝ :=
  if tempF ≤ 50 ∧ 3 < windMph then jsRoundR (windChillFormula tempF windMph)
  else if 80 ≤ tempF then jsRoundR (heatIndexFormula tempF humidity)
  else tempF

end

/-! ## `POST /lookup` — intent, composer, schema and handler -/

inductive IntentType where
  | CURRENT | DAY | HOURLY_WINDOW | DATE_RANGE
deriving DecidableEq, Repr

/-- The structured intent the extraction tool returns (or the caller echoes). -/
structure Intent where
  intentType : IntentType
  locationProvided : Bool
  location : Option String := none
  date : Option String := none
  startDate : Option String := none
  endDate : Option String := none
  startHour : Option ℤ := none
  endHour : Option ℤ := none
deriving DecidableEq, Repr

/-- `weatherData.location` (the fields the composer reads). -/
structure LocationInfo where
  name : String
  latitude : ℚ := 0
  longitude : ℚ := 0
  timezone : String := ""
deriving DecidableEq, Repr

/-- `weatherData.current` (the fields the composer and the response read). -/
structure CurrentConditions where
  tempF : ℚ := 0
  condition : String := ""
  windMph : ℚ := 0
  humidity : ℚ := 0
  feelsLikeF : ℚ := 0
  precipChance : ℚ := 0
deriving DecidableEq, Repr

/-- What `fetchWeatherData` resolves to. -/
structure WeatherData where
  location : LocationInfo
  current : CurrentConditions := {}
  forecast : List DayEntry := []
deriving DecidableEq, Repr

/-- `generateSummaryText(intent, weatherData)`.  `getHours` stands for
`h => new Date(h.time).getHours()`. -/
def generateSummaryText (getHours : String → ℤ) (intent : Intent) (wd : WeatherData) : String :=
  let name := wd.location.name
  let fallback := s!"Weather data retrieved for {name}."
  match intent.intentType with
  | .CURRENT =>
    let cond := wd.current.condition
    let t := jsRound wd.current.tempF
    s!"{name} is currently {cond} with a temperature of {t}°F."
  | .DAY =>
    match wd.forecast with
    | d :: _ =>
      let cond := d.day.condition
      let hi := jsRound d.day.maxTempF
      let lo := jsRound d.day.minTempF
      s!"{name} will be {cond} with highs around {hi}°F and lows around {lo}°F."
    | [] => fallback
  | .HOURLY_WINDOW =>
    match wd.forecast with
    | d :: _ =>
      let startH := intent.startHour.getD 0
      let endH := intent.endHour.getD 23
      let hours := d.hourly.filter fun h =>
        decide (startH ≤ getHours h.time) && decide (getHours h.time ≤ endH)
      if hours.length > 0 then
        let avgTemp := jsRound ((hours.map (·.tempF)).sum / hours.length)
        s!"{name} will average {avgTemp}°F from {startH}:00 to {endH}:00."
      else fallback
    | [] => fallback
  | .DATE_RANGE =>
    match wd.forecast with
    | _ :: _ =>
      let conds := String.intercalate ", " (firstEncounter (wd.forecast.map (·.day.condition)))
      let n := wd.forecast.length
      s!"{name} will have {conds} over the next {n} days."
    | [] => fallback

structure CurrentMetrics where
  temperature : ℤ
  feelsLike : ℤ
  condition : String
  humidity : ℚ
  windSpeed : ℤ
deriving DecidableEq, Repr

structure DayMetrics where
  high : ℤ
  low : ℤ
  precipChance : ℚ
deriving DecidableEq, Repr

structure HourCardEntry where
  hour : ℤ
  temp : ℤ
  condition : String
  precipChance : ℚ
deriving DecidableEq, Repr

structure DailyCardEntry where
  date : String
  high : ℤ
  low : ℤ
  condition : String
deriving DecidableEq, Repr

/-- The intent-specific UI card `generateCard` builds. -/
inductive Card where
  | currentCard (title : String) (metrics : CurrentMetrics)
  | dayCard (title : String) (metrics : DayMetrics)
  | hourlyWindowCard (title : String) (hourlyData : List HourCardEntry)
  | dateRangeCard (title : String) (dailyData : List DailyCardEntry)
deriving DecidableEq, Repr

/-- `generateCard(intent, weatherData)`; `none` is the `return null` fall-through. -/
def generateCard (getHours : String → ℤ) (intent : Intent) (wd : WeatherData) : Option Card :=
  let name := wd.location.name
  match intent.intentType with
  | .CURRENT =>
    some (.currentCard name
      { temperature := jsRound wd.current.tempF,
        feelsLike := jsRound wd.current.feelsLikeF,
        condition := wd.current.condition,
        humidity := wd.current.humidity,
        windSpeed := jsRound wd.current.windMph })
  | .DAY =>
    match wd.forecast with
    | d :: _ =>
      let dateLabel := jsOrStr intent.date "Today"
      some (.dayCard s!"{name} • {dateLabel}"
        { high := jsRound d.day.maxTempF,
          low := jsRound d.day.minTempF,
          precipChance := d.day.dailyChanceOfRain })
    | [] => none
  | .HOURLY_WINDOW =>
    match wd.forecast with
    | d :: _ =>
      let startH := intent.startHour.getD 0
      let endH := intent.endHour.getD 23
      let hours := d.hourly.filter fun h =>
        decide (startH ≤ getHours h.time) && decide (getHours h.time ≤ endH)
      let ts := jsOrZ intent.startHour 0
      let te := jsOrZ intent.endHour 23
      some (.hourlyWindowCard s!"{name} • {ts}:00-{te}:00"
        (hours.map fun h =>
          { hour := getHours h.time,
            temp := jsRound h.tempF,
            condition := h.condition,
            precipChance := h.chanceOfRain }))
    | [] => none
  | .DATE_RANGE =>
    match wd.forecast with
    | _ :: _ =>
      let sd := intent.startDate.getD "undefined"
      let ed := intent.endDate.getD "undefined"
      some (.dateRangeCard s!"{name} • {sd} to {ed}"
        (wd.forecast.map fun d =>
          { date := d.date,
            high := jsRound d.day.maxTempF,
            low := jsRound d.day.minTempF,
            condition := d.day.condition }))
    | [] => none

/-! ## The lookup route handler (`routes/lookup.js`) -/

/-- `'` as a character, for the "where i'm at" phrase. -/
def apos : Char := Char.ofNat 39

/-- A JS word character (`\w` = `[A-Za-z0-9_]`). -/
def wordChar (c : Char) : Bool := c.isAlpha || c.isDigit || c == '_'

/-- The alternatives of `/\b(here|my location|current location|where i am|
where i'm at|where im at)\b/i`, lowercased. -/
def currentLocationPhrases : List (List Char) :=
  ["here".data, "my location".data, "current location".data, "where i am".data,
   "where i".data ++ [apos] ++ "m at".data, "where im at".data]

/-- Does `phrase` occur as a prefix of `cs`?  Returns the rest after it. -/
def matchPrefix : List Char → List Char → Option (List Char)
  | [], rest => some rest
  | _ :: _, [] => none
  | p :: ps, c :: cs => if c == p then matchPrefix ps cs else none

/-- A `\b` boundary holds after the match: end of string or a non-word char. -/
def boundaryAfter : List Char → Bool
  | [] => true
  | c :: _ => !wordChar c

/-- Search `cs` for `phrase` with `\b` boundaries on both sides; `prev` is
the character just before `cs` (none at the start of the string). -/
def phraseSearch (phrase : List Char) : Option Char → List Char → Bool
  | prev, cs =>
    (match matchPrefix phrase cs with
     | some rest =>
       (match prev with
        | none => true
        | some c => !wordChar c) && boundaryAfter rest
     | none => false)
    || (match cs with
        | [] => false
        | c :: rest => phraseSearch phrase (some c) rest)

/-- `isNonSpecificLocation`: the regex test on the trimmed location token. -/
def isNonSpecificLocation (locationToken : String) : Bool :=
  let lower := locationToken.data.map Char.toLower
  currentLocationPhrases.any fun p => phraseSearch p none lower

/-- One entry of a disambiguation response's `locations` array. -/
structure DisambigOption where
  index : ℕ
  name : String
  region : String
  country : String
  displayName : String
  lat : ℚ
  lon : ℚ
deriving DecidableEq, Repr

/-- `address.city || address.town || address.village || address.county ||
fallback` — the display name of a candidate. -/
def placeName (a : Address) (fallback : String) : String :=
  jsOrStr a.city (jsOrStr a.town (jsOrStr a.village (jsOrStr a.county fallback)))

/-- `.map((result, index) => ({ index, name, region, country, displayName,
lat, lon }))` — shape shared by both disambiguation branches. -/
def mkDisambigOptions (rs : List GeocodeCandidate) : List DisambigOption :=
  rs.enum.map fun p =>
    { index := p.1,
      name := placeName p.2.address "Unknown",
      region := jsOrStr p.2.address.state "",
      country := jsOrStr p.2.address.country "USA",
      displayName := p.2.displayName,
      lat := p.2.lat,
      lon := p.2.lon }

/-- `addr.city || addr.town || addr.village` with the final `if (!city)`
truthiness check folded in. -/
def cityName (a : Address) : Option String :=
  jsTruthy (jsOrS a.city (jsOrS a.town a.village))

/-- The secondary city search's `.filter(r => ...)` with its closed-over
`seen` set: keep a result only if it has a truthy city/town/village name,
its address `state` strictly equals `stateName`, and the name is unseen. -/
def citiesFilter : List GeocodeCandidate → String → List String → List GeocodeCandidate
  | [], _, _ => []
  | r :: rest, stateName, seen =>
    match cityName r.address with
    | none => citiesFilter rest stateName seen
    | some city =>
      if !(r.address.state == some stateName) then citiesFilter rest stateName seen
      else if seen.contains city then citiesFilter rest stateName seen
      else r :: citiesFilter rest stateName (city :: seen)

/-- What `storeOrGetLocation` resolves to (the row id plus display fields). -/
structure ResolvedLocation where
  id : ℕ
  name : String
  region : String
  country : String
deriving DecidableEq, Repr

/-- `storeOrGetLocation`'s return value; the row id itself comes from the
database oracle `storeId` (its concurrency is analysed separately below). -/
def storeOrGetLocationMeta (storeId : GeocodeCandidate → ℕ) (c : GeocodeCandidate) :
    ResolvedLocation :=
  { id := storeId c,
    name := placeName c.address "Unknown",
    region := jsOrStr c.address.state "",
    country := jsOrStr c.address.country "USA" }

/-- `currentLocation` after `z.coerce.number()` validation. -/
structure CurrentLoc where
  lat : ℚ
  lon : ℚ
deriving DecidableEq, Repr

/-- The upstream responses a single request observes: the OpenAI tool call,
the Nominatim reverse/search/city-search answers, the NWS weather data and
the `locations`-table id for a stored candidate. -/
structure LookupEnv where
  extractedIntent : Option Intent
  reverseResult : Option GeocodeCandidate := none
  searchResults : List GeocodeCandidate := []
  citySearchResults : List GeocodeCandidate := []
  fetchWeather : ℚ → ℚ → String → WeatherData
  storeId : GeocodeCandidate → ℕ := fun _ => 1

/-- One element of the success response's `daily` array. -/
structure DailyOut where
  date : String
  condition : String
  tempMax : ℚ
  tempMin : ℚ
deriving DecidableEq, Repr

/-- The success response's `card` object. -/
structure ResponseCard where
  locationName : String
  locationId : Option ℕ
  region : Option String
  country : Option String
  lat : ℚ
  lon : ℚ
  currentTemp : ℚ
  currentCondition : String
  tempMax : Option ℚ
  tempMin : Option ℚ
  precipitationChance : ℚ
  windSpeed : ℚ
  humidity : ℚ
  daily : List DailyOut
deriving DecidableEq, Repr

def mkResponseCard (resolved : Option ResolvedLocation) (wd : WeatherData)
    (lat lon : ℚ) : ResponseCard :=
  { locationName := wd.location.name,
    locationId :=
      match resolved with
      | some r => if r.id = 0 then none else some r.id
      | none => none,
    region := resolved.map (·.region),
    country := resolved.map (·.country),
    lat := lat,
    lon := lon,
    currentTemp := wd.current.tempF,
    currentCondition := wd.current.condition,
    tempMax := wd.forecast.head?.map (·.day.maxTempF),
    tempMin := wd.forecast.head?.map (·.day.minTempF),
    precipitationChance := wd.current.precipChance,
    windSpeed := wd.current.windMph,
    humidity := wd.current.humidity,
    daily := wd.forecast.map fun d =>
      { date := d.date, condition := d.day.condition,
        tempMax := d.day.maxTempF, tempMin := d.day.minTempF } }

/-- The three response shapes the route produces. -/
inductive LookupResponse where
  | jsonError (status : ℕ) (code : String)
  | disambiguation (originalQuery : String) (locations : List DisambigOption)
      (intent : Intent) (stateName : Option String)
  | success (summaryText : String) (card : ResponseCard)
deriving DecidableEq, Repr

/-- The handler's outcome plus which effects ran: whether the delegated
intent-extraction completion was issued and whether weather was fetched. -/
structure HandlerResult where
  response : LookupResponse
  extractorCalled : Bool
  weatherFetched : Bool
deriving DecidableEq, Repr

/-- The current-location flow: best-effort reverse geocode for a display
name, then fetch weather at the device coordinates. -/
def currentLocationFlow (env : LookupEnv) (getHours : String → ℤ) (intent : Intent)
    (cl : CurrentLoc) (called : Bool) : HandlerResult :=
  let pair : String × Option ResolvedLocation :=
    match env.reverseResult with
    | some rd =>
      (placeName rd.address "Current Location",
       some (storeOrGetLocationMeta env.storeId rd))
    | none => ("Current Location", none)
  let wd := env.fetchWeather cl.lat cl.lon pair.1
  { response := .success (generateSummaryText getHours intent wd)
      (mkResponseCard pair.2 wd cl.lat cl.lon),
    extractorCalled := called,
    weatherFetched := true }

/-- The selection flow: store the chosen candidate, fetch weather at its
coordinates and compose the final response. -/
def proceedWithCandidate (env : LookupEnv) (getHours : String → ℤ) (intent : Intent)
    (locationQuery : String) (called : Bool) (location : GeocodeCandidate) : HandlerResult :=
  let locationName := placeName location.address locationQuery
  let resolved := some (storeOrGetLocationMeta env.storeId location)
  let wd := env.fetchWeather location.lat location.lon locationName
  { response := .success (generateSummaryText getHours intent wd)
      (mkResponseCard resolved wd location.lat location.lon),
    extractorCalled := called,
    weatherFetched := true }

/-- Steps 2–4 for an explicitly named location: geocoding, the two
disambiguation branches, selection validation and the final fetch. -/
def resolveNamedLocation (env : LookupEnv) (getHours : String → ℤ) (intent : Intent)
    (locationQuery : String) (selectedLocationIndex : Option ℤ) (called : Bool) :
    HandlerResult :=
  match env.searchResults with
  | [] =>
    { response := .jsonError 404 "LOCATION_NOT_FOUND",
      extractorCalled := called, weatherFetched := false }
  | firstResult :: _ =>
    let results := env.searchResults
    let isStateLevel := isStateLevelQuery locationQuery firstResult
    if isStateLevel && selectedLocationIndex.isNone then
      let stateName := jsOrStr firstResult.address.state locationQuery
      let cities := (citiesFilter env.citySearchResults stateName []).take 5
      if cities.isEmpty then
        { response := .jsonError 400 "LOCATION_TOO_BROAD",
          extractorCalled := called, weatherFetched := false }
      else
        { response := .disambiguation locationQuery (mkDisambigOptions cities)
            intent (some stateName),
          extractorCalled := called, weatherFetched := false }
    else
      let isAmbiguous := selectedLocationIndex.isNone && !isStateLevel
        && decide (results.length > 1)
        && decide ((firstEncounter (results.map fun r =>
              placeName r.address "Unknown")).length > 1)
      if isAmbiguous then
        { response := .disambiguation locationQuery
            (mkDisambigOptions (results.take 5)) intent none,
          extractorCalled := called, weatherFetched := false }
      else
        let locationIndex : ℤ := selectedLocationIndex.getD 0
        if decide ((results.length : ℤ) ≤ locationIndex) then
          { response := .jsonError 400 "INVALID_SELECTION",
            extractorCalled := called, weatherFetched := false }
        else if decide (locationIndex < 0) then
          -- `results[locationIndex]` is `undefined`; reading `.address`
          -- throws, and the catch-all maps it to 500.
          { response := .jsonError 500 "LOOKUP_ERROR",
            extractorCalled := called, weatherFetched := false }
        else
          proceedWithCandidate env getHours intent locationQuery called
            ((results.get? locationIndex.toNat).getD firstResult)

/-- The `router.post('/')` handler body, after `lookupSchema.parse`
destructuring: `query`, `currentLocation`, `selectedLocationIndex` and
`intent: cachedIntent` are the destructured values. -/
def lookupHandler (env : LookupEnv) (hasApiKey : Bool) (getHours : String → ℤ)
    (currentLocation : Option CurrentLoc) (selectedLocationIndex : Option ℤ)
    (cachedIntent : Option Intent) : HandlerResult :=
  if !hasApiKey && cachedIntent.isNone then
    { response := .jsonError 500 "CONFIGURATION_ERROR",
      extractorCalled := false, weatherFetched := false }
  else
    let step1 : Option Intent × Bool :=
      match cachedIntent with
      | some i => (some i, false)
      | none => (env.extractedIntent, true)
    match step1.1 with
    | none =>
      { response := .jsonError 400 "INTENT_EXTRACTION_FAILED",
        extractorCalled := step1.2, weatherFetched := false }
    | some intent =>
      let called := step1.2
      let locationToken := trimStr (intent.location.getD "")
      if !intent.locationProvided || isNonSpecificLocation locationToken then
        match currentLocation with
        | none =>
          { response := .jsonError 400 "CURRENT_LOCATION_REQUIRED",
            extractorCalled := called, weatherFetched := false }
        | some cl => currentLocationFlow env getHours intent cl called
      else
        if locationToken == "" then
          { response := .jsonError 400 "LOCATION_REQUIRED",
            extractorCalled := called, weatherFetched := false }
        else
          resolveNamedLocation env getHours intent locationToken
            selectedLocationIndex called

/-! ## `lookupSchema` (`validators/schemas.js`) composed with the handler -/

/-- A `POST /lookup` request body as the client sends it. -/
structure RawLookupBody where
  query : Option String := none
  units : Option String := none
  currentLocation : Option CurrentLoc := none
  selectedLocationIndex : Option ℤ := none
  intent : Option Intent := none
deriving DecidableEq, Repr

/-- What `lookupSchema.parse(req.body)` yields.  The schema declares only
`query`, `units` and `currentLocation`; zod objects strip unknown keys, so
the parsed object never carries `selectedLocationIndex` or `intent` and the
handler's destructuring of those two properties reads `undefined`. -/
structure ParsedLookupBody where
  query : String
  units : String
  currentLocation : Option CurrentLoc
  selectedLocationIndex : Option ℤ
  intent : Option Intent
deriving DecidableEq, Repr

/-- `lookupSchema.parse`: `query` required non-empty, `units` an optional
enum defaulting to `'imperial'`, `currentLocation` optional; every other
key of the body is stripped. -/
def lookupSchemaParse (b : RawLookupBody) : Option ParsedLookupBody :=
  match b.query with
  | none => none
  | some q =>
    if q.length < 1 then none
    else
      let unitsOk :=
        match b.units with
        | none => true
        | some u => u == "imperial" || u == "metric"
      if !unitsOk then none
      else
        some { query := q,
               units := b.units.getD "imperial",
               currentLocation := b.currentLocation,
               selectedLocationIndex := none,
               intent := none }

/-- The route as mounted: `lookupSchema.parse` (a `ZodError` becomes the
error middleware's 400 `VALIDATION_ERROR`) followed by the handler. -/
def lookupRoute (env : LookupEnv) (hasApiKey : Bool) (getHours : String → ℤ)
    (body : RawLookupBody) : HandlerResult :=
  match lookupSchemaParse body with
  | none =>
    { response := .jsonError 400 "VALIDATION_ERROR",
      extractorCalled := false, weatherFetched := false }
  | some parsed =>
    lookupHandler env hasApiKey getHours parsed.currentLocation
      parsed.selectedLocationIndex parsed.intent

/-! ## `storeOrGetLocation` — the `locations` table under concurrency

The function issues three database statements: a `SELECT` by
`external_id`; an `INSERT ... ON CONFLICT (external_id) DO NOTHING
RETURNING id`; and, when the conflict clause fired (no row returned), a
second `SELECT`.  Each statement is atomic; requests interleave between
statements.  The table is a list of `(id, external_id)` rows plus the
serial counter, and two clients resolving the same `external_id` run as a
state machine driven by an arbitrary schedule. -/

structure LocationsTable where
  rows : List (ℕ × String)
  nextId : ℕ
deriving DecidableEq, Repr

/-- `SELECT id FROM locations WHERE external_id = $1` (first row). -/
def findExt (db : LocationsTable) (ext : String) : Option ℕ :=
  (db.rows.find? fun r => r.2 == ext).map (·.1)

/-- How many rows carry this `external_id`. -/
def countExt (db : LocationsTable) (ext : String) : ℕ :=
  (db.rows.filter fun r => r.2 == ext).length

/-- Where a client is between the statements of `storeOrGetLocation`. -/
inductive ClientState where
  | initial
  | insertPending
  | reselect
  | finished (result : Option ℕ)
deriving DecidableEq, Repr

/-- One atomic statement of `storeOrGetLocation`:
* `initial`: the existence check — a hit returns that id at once;
* `insertPending`: the upsert — on conflict `DO NOTHING` returns no row,
  otherwise the row `(nextId, ext)` is inserted and its id returned;
* `reselect`: the post-conflict `SELECT` — returns the existing row's id. -/
def clientStep (ext : String) (db : LocationsTable) :
    ClientState → LocationsTable × ClientState
  | .initial =>
    match findExt db ext with
    | some i => (db, .finished (some i))
    | none => (db, .insertPending)
  | .insertPending =>
    match findExt db ext with
    | some _ => (db, .reselect)
    | none =>
      ({ rows := db.rows ++ [(db.nextId, ext)], nextId := db.nextId + 1 },
       .finished (some db.nextId))
  | .reselect => (db, .finished (findExt db ext))
  | .finished r => (db, .finished r)

/-- Two concurrent requests over the shared table. -/
structure StoreSystem where
  db : LocationsTable
  c1 : ClientState
  c2 : ClientState
deriving DecidableEq, Repr

/-- Scheduler step: `true` runs client 1, `false` runs client 2. -/
def sysStep (ext : String) (s : StoreSystem) (pick : Bool) : StoreSystem :=
  if pick then
    let r := clientStep ext s.db s.c1
    { s with db := r.1, c1 := r.2 }
  else
    let r := clientStep ext s.db s.c2
    { s with db := r.1, c2 := r.2 }

/-- Run both clients under an arbitrary interleaving. -/
def runStore (ext : String) (s : StoreSystem) (sched : List Bool) : StoreSystem :=
  sched.foldl (sysStep ext) s

/-! # Theorems -/

/-! ## C4 — `estimateFeelsLike` branch structure -/

/-- C4: `estimateFeelsLike` returns the rounded wind-chill polynomial
exactly when `tempF ≤ 50` and `windMph > 3`; otherwise the rounded
heat-index polynomial exactly when `tempF ≥ 80`, regardless of humidity;
otherwise the actual temperature unchanged — and at the boundary
`tempF = 50, windMph = 3` the feels-like equals the actual temperature. -/
theorem estimateFeelsLike_branches :
    ∀ t v h : ℝ,
      (t ≤ 50 ∧ 3 < v → estimateFeelsLike t v h = jsRoundR (windChillFormula t v)) ∧
      (¬(t ≤ 50 ∧ 3 < v) → 80 ≤ t →
        estimateFeelsLike t v h = jsRoundR (heatIndexFormula t h)) ∧
      (¬(t ≤ 50 ∧ 3 < v) → ¬(80 ≤ t) → estimateFeelsLike t v h = t) ∧
      estimateFeelsLike 50 3 h = 50 := by
  intro t v h
  refine ⟨?_, ?_, ?_, ?_⟩
  · intro hc
    rw [estimateFeelsLike, if_pos hc]
  · intro hc hh
    rw [estimateFeelsLike, if_neg hc, if_pos hh]
  · intro hc hh
    rw [estimateFeelsLike, if_neg hc, if_neg hh]
  · have hc : ¬((50 : ℝ) ≤ 50 ∧ (3 : ℝ) < 3) := by
      rintro ⟨-, h3⟩
      exact lt_irrefl _ h3
    have hh : ¬((80 : ℝ) ≤ 50) := by norm_num
    rw [estimateFeelsLike, if_neg hc, if_neg hh]

/-! ## C3 — `isStateLevelQuery` characterization -/

/-- The spec's wording of state-level classification, as a proposition. -/
def stateLevelSpec (locationQuery : String) (r : GeocodeCandidate) : Prop :=
  normalizeLocationText r.address.state ≠ "" ∧
  (normalizeLocationText r.addresstype = "state" ∨
    ((r.type = some "administrative" ∨ r.type = some "boundary" ∨
        r.osmType = some "relation") ∧
      ∃ imp, r.importance = some imp ∧ (0.7 : ℚ) < imp)) ∧
  (normalizeLocationText (some locationQuery) = normalizeLocationText r.address.state ∨
    ∃ ab, lookupAbbrev (normalizeLocationText r.address.state) = some ab ∧
      normalizeLocationText (some locationQuery) = ab) ∧
  normalizeLocationText (some locationQuery) ≠
    normalizeLocationText (jsOrS r.address.city (jsOrS r.address.town r.address.village)) ∧
  normalizeLocationText (some locationQuery) ≠ normalizeLocationText r.address.county

/-- Every abbreviation in the fixed table is non-empty. -/
theorem lookupAbbrev_ne_empty {s ab : String} (h : lookupAbbrev s = some ab) : ab ≠ "" := by
  have hne : ∀ p ∈ usStateAbbreviations, p.2 ≠ "" := by decide
  unfold lookupAbbrev at h
  rw [Option.map_eq_some'] at h
  obtain ⟨kv, hfind, hab⟩ := h
  exact hab ▸ hne kv (List.mem_of_find?_eq_some hfind)

theorem importanceAbove_iff (o : Option ℚ) :
    importanceAbove o = true ↔ ∃ imp, o = some imp ∧ (0.7 : ℚ) < imp := by
  cases o with
  | none => simp [importanceAbove]
  | some imp =>
    simp only [importanceAbove, Bool.and_eq_true, Bool.not_eq_true', beq_eq_false_iff_ne,
      decide_eq_true_eq, Option.some.injEq]
    constructor
    · rintro ⟨-, h⟩
      exact ⟨imp, rfl, h⟩
    · rintro ⟨imp', h', hgt⟩
      subst h'
      refine ⟨?_, hgt⟩
      rintro rfl
      norm_num at hgt

theorem queryMatchesAbbrev_iff (nq ns : String) :
    queryMatchesAbbrev nq ns = true ↔ ∃ ab, lookupAbbrev ns = some ab ∧ nq = ab := by
  unfold queryMatchesAbbrev
  cases hab : lookupAbbrev ns with
  | none => simp
  | some ab => simp

/-- The `"texas"` candidate of the spec's example. -/
def texasStateCandidate : GeocodeCandidate :=
  { displayName := "Texas, United States", lat := 31, lon := -100,
    address := { state := some "Texas", country := some "United States" },
    importance := some 0.88, osmType := some "relation",
    type := some "administrative", addresstype := some "state" }

/-- An `"Austin"` city result. -/
def austinCityCandidate : GeocodeCandidate :=
  { displayName := "Austin, Travis County, Texas, United States", lat := 30, lon := -97,
    address := { city := some "Austin", county := some "Travis County",
                 state := some "Texas", country := some "United States" },
    importance := some 0.8, osmType := some "relation",
    type := some "administrative", addresstype := some "city" }

/-- A `"Travis County"` county result. -/
def travisCountyCandidate : GeocodeCandidate :=
  { displayName := "Travis County, Texas, United States", lat := 30, lon := -97,
    address := { county := some "Travis County", state := some "Texas",
                 country := some "United States" },
    importance := some 0.75, osmType := some "relation",
    type := some "administrative", addresstype := some "county" }

/-- C3: `isStateLevelQuery` returns true iff the candidate's normalized
state is non-empty, the candidate is an explicit state result or an
important administrative/boundary/relation, the normalized query equals
the full state name or its table abbreviation, and the query matches
neither the city/town/village nor the county field; with the spec's three
concrete examples. -/
theorem isStateLevelQuery_characterization :
    (∀ q r, isStateLevelQuery q r = true ↔ stateLevelSpec q r) ∧
    isStateLevelQuery "texas" texasStateCandidate = true ∧
    isStateLevelQuery "Austin" austinCityCandidate = false ∧
    isStateLevelQuery "Travis County" travisCountyCandidate = false := by
  refine ⟨?_, by with_unfolding_all decide, by with_unfolding_all decide,
    by with_unfolding_all decide⟩
  intro q r
  unfold isStateLevelQuery stateLevelSpec
  by_cases h1 : normalizeLocationText (some q) = ""
  · rw [if_pos (by simpa using h1)]
    simp only [Bool.false_eq_true, false_iff]
    rintro ⟨hs, -, hq, -⟩
    rcases hq with hq | ⟨ab, hab, hq⟩
    · exact hs (hq.symm.trans h1)
    · exact lookupAbbrev_ne_empty hab (hq.symm.trans h1)
  · rw [if_neg (by simpa using h1)]
    by_cases h2 : normalizeLocationText r.address.state = ""
    · rw [if_pos (by simpa using h2)]
      simp only [Bool.false_eq_true, false_iff]
      rintro ⟨hs, -⟩
      exact hs h2
    · rw [if_neg (by simpa using h2)]
      simp only [Bool.and_eq_true, Bool.or_eq_true, beq_iff_eq, Bool.not_eq_true',
        Bool.or_eq_false_iff, beq_eq_false_iff_ne, importanceAbove_iff,
        queryMatchesAbbrev_iff]
      constructor
      · rintro ⟨⟨hcls, hmatch⟩, hne1, hne2⟩
        rw [or_assoc] at hcls
        exact ⟨h2, hcls, hmatch, hne1, hne2⟩
      · rintro ⟨-, hcls, hmatch, hne1, hne2⟩
        rw [← or_assoc] at hcls
        exact ⟨⟨hcls, hmatch⟩, hne1, hne2⟩

/-! ## C9 — `storeOrGetLocation` keeps one row per `external_id` -/

/-- What a client's position guarantees about the shared table. -/
def clientOk (ext : String) (db : LocationsTable) : ClientState → Prop
  | .reselect => ∃ i, findExt db ext = some i
  | .finished r => ∃ i, r = some i ∧ findExt db ext = some i
  | _ => True

/-- The system invariant: every `external_id` has at most one row, row ids
are below the serial counter, and each client's state is consistent. -/
def storeInv (ext : String) (s : StoreSystem) : Prop :=
  (∀ e, countExt s.db e ≤ 1) ∧
  (∀ p ∈ s.db.rows, p.1 < s.db.nextId) ∧
  clientOk ext s.db s.c1 ∧ clientOk ext s.db s.c2

theorem findExt_append (db : LocationsTable) (row : ℕ × String) (m : ℕ) (ext : String) :
    findExt { rows := db.rows ++ [row], nextId := m } ext =
      (findExt db ext).orElse fun _ => if row.2 == ext then some row.1 else none := by
  unfold findExt
  rw [List.find?_append]
  cases hf : db.rows.find? fun r => r.2 == ext with
  | none =>
    simp only [Option.map_none', Option.none_orElse]
    by_cases h : row.2 == ext
    · simp [List.find?, h]
    · simp only [List.find?, h]
      simp [h]
  | some r => simp [hf]

theorem findExt_eq_none_iff (db : LocationsTable) (ext : String) :
    findExt db ext = none ↔ ∀ r ∈ db.rows, r.2 ≠ ext := by
  unfold findExt
  rw [Option.map_eq_none', List.find?_eq_none]
  simp

theorem countExt_append (db : LocationsTable) (row : ℕ × String) (m : ℕ)
    (ext : String) :
    countExt { rows := db.rows ++ [row], nextId := m } ext =
      countExt db ext + (if row.2 == ext then 1 else 0) := by
  unfold countExt
  rw [List.filter_append, List.length_append]
  by_cases h : row.2 == ext <;> simp [List.filter, h]

theorem countExt_eq_zero_of_findExt_none {db : LocationsTable} {ext : String}
    (h : findExt db ext = none) : countExt db ext = 0 := by
  rw [findExt_eq_none_iff] at h
  unfold countExt
  rw [List.length_eq_zero, List.filter_eq_nil_iff]
  intro r hr
  simpa using h r hr

/-- A step of either client can only extend the table, never rewrite a
present `external_id` binding. -/
theorem findExt_mono_clientStep (ext q : String) (db : LocationsTable) (c : ClientState)
    {i : ℕ} (h : findExt db q = some i) :
    findExt (clientStep ext db c).1 q = some i := by
  cases c with
  | initial => cases hf : findExt db ext <;> simp [clientStep, hf, h]
  | insertPending =>
    cases hf : findExt db ext with
    | some j => simp [clientStep, hf, h]
    | none =>
      simp only [clientStep, hf]
      rw [findExt_append]
      simp [h]
  | reselect => simp [clientStep, h]
  | finished r => simp [clientStep, h]

theorem clientOk_mono (ext q : String) (db : LocationsTable) (cstep c : ClientState)
    (h : clientOk q db c) :
    clientOk q (clientStep ext db cstep).1 c := by
  cases c with
  | initial => trivial
  | insertPending => trivial
  | reselect =>
    obtain ⟨i, hi⟩ := h
    exact ⟨i, findExt_mono_clientStep ext q db cstep hi⟩
  | finished r =>
    obtain ⟨i, hr, hi⟩ := h
    exact ⟨i, hr, findExt_mono_clientStep ext q db cstep hi⟩

/-- One client's statement preserves the table invariants and establishes
its own new state's guarantee. -/
theorem clientStep_sound (ext : String) (db : LocationsTable) (c : ClientState)
    (hcount : ∀ e, countExt db e ≤ 1)
    (hfresh : ∀ p ∈ db.rows, p.1 < db.nextId)
    (hc : clientOk ext db c) :
    (∀ e, countExt (clientStep ext db c).1 e ≤ 1) ∧
    (∀ p ∈ (clientStep ext db c).1.rows, p.1 < (clientStep ext db c).1.nextId) ∧
    clientOk ext (clientStep ext db c).1 (clientStep ext db c).2 := by
  cases c with
  | initial =>
    cases hf : findExt db ext with
    | some i => exact ⟨by simpa [clientStep, hf] using hcount,
        by simpa [clientStep, hf] using hfresh, by simp [clientStep, hf, clientOk, hf]⟩
    | none => exact ⟨by simpa [clientStep, hf] using hcount,
        by simpa [clientStep, hf] using hfresh, by simp [clientStep, hf, clientOk]⟩
  | insertPending =>
    cases hf : findExt db ext with
    | some i =>
      refine ⟨by simpa [clientStep, hf] using hcount,
        by simpa [clientStep, hf] using hfresh, ?_⟩
      simp only [clientStep, hf, clientOk]
      exact ⟨i, rfl⟩
    | none =>
      refine ⟨?_, ?_, ?_⟩
      · intro e
        simp only [clientStep, hf]
        rw [countExt_append db (db.nextId, ext) (db.nextId + 1) e]
        by_cases he : ext = e
        · subst he
          have := countExt_eq_zero_of_findExt_none hf
          simp only [beq_self_eq_true, if_true]
          omega
        · have : ((db.nextId, ext).2 == e) = false := by
            simpa using he
          rw [this]
          simpa using hcount e
      · intro p hp
        simp only [clientStep, hf] at hp ⊢
        rw [List.mem_append] at hp
        rcases hp with hp | hp
        · exact Nat.lt_succ_of_lt (hfresh p hp)
        · simp only [List.mem_singleton] at hp
          subst hp
          exact Nat.lt_succ_self _
      · simp only [clientStep, hf, clientOk]
        refine ⟨db.nextId, rfl, ?_⟩
        rw [findExt_append]
        simp [hf]
  | reselect =>
    obtain ⟨i, hi⟩ := hc
    exact ⟨by simpa [clientStep] using hcount, by simpa [clientStep] using hfresh,
      by simp [clientStep, clientOk, hi]⟩
  | finished r =>
    obtain ⟨i, hr, hi⟩ := hc
    exact ⟨by simpa [clientStep] using hcount, by simpa [clientStep] using hfresh,
      by simp [clientStep, clientOk]; exact ⟨i, hr, hi⟩⟩

theorem storeInv_sysStep (ext : String) (s : StoreSystem) (pick : Bool)
    (h : storeInv ext s) : storeInv ext (sysStep ext s pick) := by
  obtain ⟨hcount, hfresh, hc1, hc2⟩ := h
  cases pick with
  | true =>
    obtain ⟨hcount', hfresh', hc'⟩ := clientStep_sound ext s.db s.c1 hcount hfresh hc1
    exact ⟨hcount', hfresh', hc', clientOk_mono ext ext s.db s.c1 s.c2 hc2⟩
  | false =>
    obtain ⟨hcount', hfresh', hc'⟩ := clientStep_sound ext s.db s.c2 hcount hfresh hc2
    exact ⟨hcount', hfresh', clientOk_mono ext ext s.db s.c2 s.c1 hc1, hc'⟩

theorem storeInv_runStore (ext : String) (s : StoreSystem) (sched : List Bool)
    (h : storeInv ext s) : storeInv ext (runStore ext s sched) := by
  induction sched generalizing s with
  | nil => exact h
  | cons pick rest ih =>
    exact ih (sysStep ext s pick) (storeInv_sysStep ext s pick h)

/-- C9: under any interleaving of two concurrent `storeOrGetLocation`
runs for the same `external_id`, the table keeps at most one row per
`external_id`, and when both runs finish they return the same id — the id
of the unique row holding that `external_id`. -/
theorem storeOrGetLocation_unique_row :
    ∀ (db0 : LocationsTable) (ext : String) (sched : List Bool),
      (∀ e, countExt db0 e ≤ 1) →
      (∀ p ∈ db0.rows, p.1 < db0.nextId) →
      (∀ e, countExt (runStore ext ⟨db0, .initial, .initial⟩ sched).db e ≤ 1) ∧
      (∀ r1 r2,
        (runStore ext ⟨db0, .initial, .initial⟩ sched).c1 = .finished r1 →
        (runStore ext ⟨db0, .initial, .initial⟩ sched).c2 = .finished r2 →
        r1 = r2 ∧ ∃ i, r1 = some i ∧
          findExt (runStore ext ⟨db0, .initial, .initial⟩ sched).db ext = some i) := by
  intro db0 ext sched hcount hfresh
  have hinv := storeInv_runStore ext ⟨db0, .initial, .initial⟩ sched
    ⟨hcount, hfresh, trivial, trivial⟩
  obtain ⟨hcount', -, hc1, hc2⟩ := hinv
  refine ⟨hcount', ?_⟩
  intro r1 r2 h1 h2
  rw [h1] at hc1
  rw [h2] at hc2
  obtain ⟨i, hri, hfi⟩ := hc1
  obtain ⟨j, hrj, hfj⟩ := hc2
  rw [hfi] at hfj
  cases hfj
  exact ⟨by rw [hri, hrj], i, hri, hfi⟩

/-- C9 witness: an interleaving where both clients pass the existence
check before either inserts — the `ON CONFLICT DO NOTHING` path — still
ends with one row and both clients returning its id. -/
theorem storeOrGetLocation_unique_row_witness :
    (∀ e, countExt (runStore "9871" ⟨⟨[], 0⟩, .initial, .initial⟩
        [true, false, true, false, false]).db e ≤ 1) ∧
    (∀ r1 r2,
      (runStore "9871" ⟨⟨[], 0⟩, .initial, .initial⟩
        [true, false, true, false, false]).c1 = .finished r1 →
      (runStore "9871" ⟨⟨[], 0⟩, .initial, .initial⟩
        [true, false, true, false, false]).c2 = .finished r2 →
      r1 = r2 ∧ ∃ i, r1 = some i ∧
        findExt (runStore "9871" ⟨⟨[], 0⟩, .initial, .initial⟩
          [true, false, true, false, false]).db "9871" = some i) :=
  storeOrGetLocation_unique_row ⟨[], 0⟩ "9871" [true, false, true, false, false]
    (fun e => by simp [countExt]) (by simp)

/-! ## Grouping lemmas for the forecast claims -/

theorem groupForecastByDay_snoc (ps : List ForecastPeriod) (p : ForecastPeriod) :
    groupForecastByDay (ps ++ [p]) = insertForecastPeriod (groupForecastByDay ps) p := by
  simp [groupForecastByDay, List.foldl_append]

theorem groupHourlyByDay_snoc (ps : List ForecastPeriod) (p : ForecastPeriod) :
    groupHourlyByDay (ps ++ [p]) = insertHourlyPeriod (groupHourlyByDay ps) p := by
  simp [groupHourlyByDay, List.foldl_append]

theorem keys_insertForecastPeriod (acc : List (String × DayBucket)) (p : ForecastPeriod) :
    (insertForecastPeriod acc p).map Prod.fst =
      if (acc.map Prod.fst).contains (dateKey p) then acc.map Prod.fst
      else acc.map Prod.fst ++ [dateKey p] := by
  by_cases h : (acc.map Prod.fst).contains (dateKey p)
  · rw [insertForecastPeriod, if_pos h, if_pos h, List.map_map]
    refine List.map_eq_map_iff.mpr ?_
    intro kv _
    by_cases hkv : kv.1 = dateKey p <;> simp [hkv]
  · rw [insertForecastPeriod, if_neg h, if_neg h, List.map_append]
    rfl

theorem keys_insertHourlyPeriod (acc : List (String × List ForecastPeriod))
    (p : ForecastPeriod) :
    (insertHourlyPeriod acc p).map Prod.fst =
      if (acc.map Prod.fst).contains (dateKey p) then acc.map Prod.fst
      else acc.map Prod.fst ++ [dateKey p] := by
  by_cases h : (acc.map Prod.fst).contains (dateKey p)
  · rw [insertHourlyPeriod, if_pos h, if_pos h, List.map_map]
    refine List.map_eq_map_iff.mpr ?_
    intro kv _
    by_cases hkv : kv.1 = dateKey p <;> simp [hkv]
  · rw [insertHourlyPeriod, if_neg h, if_neg h, List.map_append]
    rfl

theorem firstEncounter_snoc (l : List String) (d : String) :
    firstEncounter (l ++ [d]) =
      if (firstEncounter l).contains d then firstEncounter l
      else firstEncounter l ++ [d] := by
  simp [firstEncounter, List.foldl_append]

theorem keys_groupForecastByDay (ps : List ForecastPeriod) :
    (groupForecastByDay ps).map Prod.fst = firstEncounter (ps.map dateKey) := by
  induction ps using List.reverseRecOn with
  | nil => rfl
  | append_singleton ps p ih =>
    rw [groupForecastByDay_snoc, keys_insertForecastPeriod, ih, List.map_append,
      List.map_singleton, firstEncounter_snoc]

theorem keys_groupHourlyByDay (ps : List ForecastPeriod) :
    (groupHourlyByDay ps).map Prod.fst = firstEncounter (ps.map dateKey) := by
  induction ps using List.reverseRecOn with
  | nil => rfl
  | append_singleton ps p ih =>
    rw [groupHourlyByDay_snoc, keys_insertHourlyPeriod, ih, List.map_append,
      List.map_singleton, firstEncounter_snoc]

theorem mem_firstEncounter (d : String) (l : List String) :
    d ∈ firstEncounter l ↔ d ∈ l := by
  suffices h : ∀ acc : List String,
      d ∈ l.foldl (fun acc x => if acc.contains x then acc else acc ++ [x]) acc ↔
        d ∈ acc ∨ d ∈ l by
    simpa [firstEncounter] using h []
  induction l with
  | nil => intro acc; simp
  | cons x l ih =>
    intro acc
    rw [List.foldl_cons]
    by_cases hx : acc.contains x
    · rw [if_pos hx, ih]
      have hxm : x ∈ acc := List.elem_iff.mp hx
      simp only [List.mem_cons]
      constructor
      · rintro (h | h)
        · exact Or.inl h
        · exact Or.inr (Or.inr h)
      · rintro (h | h | h)
        · exact Or.inl h
        · exact Or.inl (h ▸ hxm)
        · exact Or.inr h
    · rw [if_neg hx, ih]
      simp only [List.mem_append, List.mem_singleton, List.mem_cons]
      tauto

theorem nodup_firstEncounter (l : List String) : (firstEncounter l).Nodup := by
  suffices h : ∀ acc : List String, acc.Nodup →
      (l.foldl (fun acc x => if acc.contains x then acc else acc ++ [x]) acc).Nodup by
    exact h [] List.nodup_nil
  induction l with
  | nil => intro acc h; exact h
  | cons x l ih =>
    intro acc h
    rw [List.foldl_cons]
    by_cases hx : acc.contains x
    · rw [if_pos hx]; exact ih acc h
    · rw [if_neg hx]
      refine ih _ ?_
      have hxm : x ∉ acc := fun hm => hx (List.elem_iff.mpr hm)
      simp [List.nodup_append, h, hxm]

theorem dayHalf_snoc (ps : List ForecastPeriod) (p : ForecastPeriod) (d : String) :
    dayHalf (ps ++ [p]) d =
      if dateKey p == d && p.isDaytime then some p else dayHalf ps d := by
  unfold dayHalf
  rw [List.filter_append]
  by_cases h : (dateKey p == d && p.isDaytime)
  · rw [if_pos h]
    simp [List.filter, h]
  · rw [if_neg h]
    simp only [List.filter, h]
    simp

theorem nightHalf_snoc (ps : List ForecastPeriod) (p : ForecastPeriod) (d : String) :
    nightHalf (ps ++ [p]) d =
      if dateKey p == d && !p.isDaytime then some p else nightHalf ps d := by
  unfold nightHalf
  rw [List.filter_append]
  by_cases h : (dateKey p == d && !p.isDaytime)
  · rw [if_pos h]
    simp [List.filter, h]
  · rw [if_neg h]
    simp only [List.filter, h]
    simp

theorem dayHalf_eq_none_of_not_mem {ps : List ForecastPeriod} {d : String}
    (h : d ∉ ps.map dateKey) : dayHalf ps d = none := by
  unfold dayHalf
  have : (ps.filter fun p => dateKey p == d && p.isDaytime) = [] := by
    rw [List.filter_eq_nil_iff]
    intro p hp
    have : dateKey p ≠ d := fun he => h (he ▸ List.mem_map_of_mem dateKey hp)
    simp [this]
  rw [this]
  rfl

theorem nightHalf_eq_none_of_not_mem {ps : List ForecastPeriod} {d : String}
    (h : d ∉ ps.map dateKey) : nightHalf ps d = none := by
  unfold nightHalf
  have : (ps.filter fun p => dateKey p == d && !p.isDaytime) = [] := by
    rw [List.filter_eq_nil_iff]
    intro p hp
    have : dateKey p ≠ d := fun he => h (he ▸ List.mem_map_of_mem dateKey hp)
    simp [this]
  rw [this]
  rfl

theorem find?_groupForecastByDay (ps : List ForecastPeriod) (d : String) :
    (groupForecastByDay ps).find? (fun kv => kv.1 == d) =
      if d ∈ ps.map dateKey then some (d, ⟨dayHalf ps d, nightHalf ps d⟩) else none := by
  induction ps using List.reverseRecOn with
  | nil => simp [groupForecastByDay]
  | append_singleton ps p ih =>
    rw [groupForecastByDay_snoc]
    by_cases hk : ((groupForecastByDay ps).map Prod.fst).contains (dateKey p)
    · have hk' : dateKey p ∈ ps.map dateKey := by
        rw [keys_groupForecastByDay] at hk
        exact (mem_firstEncounter _ _).mp (List.elem_iff.mp hk)
      rw [insertForecastPeriod, if_pos hk]
      rw [List.find?_map]
      have hfun : ((fun kv : String × DayBucket => kv.1 == d) ∘
          fun kv => if kv.1 == dateKey p then (kv.1, bucketAdd kv.2 p) else kv) =
          fun kv : String × DayBucket => kv.1 == d := by
        funext kv
        by_cases hkv : kv.1 = dateKey p <;> simp [hkv]
      rw [hfun, ih]
      by_cases hdk : dateKey p = d
      · subst hdk
        rw [if_pos hk', if_pos (by simp [List.map_append])]
        rw [dayHalf_snoc, nightHalf_snoc]
        simp only [Option.map_some', beq_self_eq_true, if_true]
        cases hdt : p.isDaytime
        · simp [bucketAdd, hdt]
        · simp [bucketAdd, hdt]
      · have hmem : d ∈ (ps ++ [p]).map dateKey ↔ d ∈ ps.map dateKey := by
          simp only [List.map_append, List.map_singleton, List.mem_append,
            List.mem_singleton]
          constructor
          · rintro (h | h)
            · exact h
            · exact absurd h.symm hdk
          · exact Or.inl
        rw [dayHalf_snoc, nightHalf_snoc]
        have hbeq : (dateKey p == d) = false := by simpa using hdk
        rw [hbeq]
        simp only [Bool.false_and, if_false]
        by_cases hd : d ∈ ps.map dateKey
        · rw [if_pos hd, if_pos (hmem.mpr hd)]
          have hupd : (if d == dateKey p then ((d : String), bucketAdd
              (⟨dayHalf ps d, nightHalf ps d⟩ : DayBucket) p)
              else (d, ⟨dayHalf ps d, nightHalf ps d⟩)) =
              (d, (⟨dayHalf ps d, nightHalf ps d⟩ : DayBucket)) := by
            have : (d == dateKey p) = false := by
              simpa using fun he => hdk he.symm
            rw [this]
            simp
          simp only [Option.map_some']
          rw [hupd]
          simp
        · rw [if_neg hd, if_neg (fun hin => hd (hmem.mp hin))]
          rfl
    · have hk' : dateKey p ∉ ps.map dateKey := by
        rw [keys_groupForecastByDay] at hk
        exact fun hm => hk (List.elem_iff.mpr ((mem_firstEncounter _ _).mpr hm))
      rw [insertForecastPeriod, if_neg hk]
      rw [List.find?_append, ih]
      by_cases hdk : dateKey p = d
      · subst hdk
        rw [if_neg hk']
        rw [if_pos (by simp [List.map_append])]
        rw [dayHalf_snoc, nightHalf_snoc]
        simp only [beq_self_eq_true, if_true, Option.none_or]
        rw [dayHalf_eq_none_of_not_mem hk', nightHalf_eq_none_of_not_mem hk']
        cases hdt : p.isDaytime
        · simp [List.find?, bucketAdd, hdt]
        · simp [List.find?, bucketAdd, hdt]
      · have hbeq : (dateKey p == d) = false := by simpa using hdk
        have hmem : d ∈ (ps ++ [p]).map dateKey ↔ d ∈ ps.map dateKey := by
          simp only [List.map_append, List.map_singleton, List.mem_append,
            List.mem_singleton]
          constructor
          · rintro (h | h)
            · exact h
            · exact absurd h.symm hdk
          · exact Or.inl
        rw [dayHalf_snoc, nightHalf_snoc, hbeq]
        simp only [Bool.false_and, if_false]
        have hsingle : List.find? (fun kv : String × DayBucket => kv.1 == d)
            [(dateKey p, bucketAdd {} p)] = none := by
          simp [List.find?, hbeq]
        rw [hsingle]
        by_cases hd : d ∈ ps.map dateKey
        · rw [if_pos hd, if_pos (hmem.mpr hd)]
          rfl
        · rw [if_neg hd, if_neg (fun hin => hd (hmem.mp hin))]
          rfl

theorem find?_groupHourlyByDay (ps : List ForecastPeriod) (d : String) :
    (groupHourlyByDay ps).find? (fun kv => kv.1 == d) =
      if d ∈ ps.map dateKey then some (d, ps.filter fun p => dateKey p == d)
      else none := by
  induction ps using List.reverseRecOn with
  | nil => simp [groupHourlyByDay]
  | append_singleton ps p ih =>
    rw [groupHourlyByDay_snoc]
    have hfilter : ((ps ++ [p]).filter fun q => dateKey q == d) =
        (ps.filter fun q => dateKey q == d) ++
          (if dateKey p == d then [p] else []) := by
      rw [List.filter_append]
      by_cases hq : (dateKey p == d) <;> simp [List.filter, hq]
    by_cases hk : ((groupHourlyByDay ps).map Prod.fst).contains (dateKey p)
    · have hk' : dateKey p ∈ ps.map dateKey := by
        rw [keys_groupHourlyByDay] at hk
        exact (mem_firstEncounter _ _).mp (List.elem_iff.mp hk)
      rw [insertHourlyPeriod, if_pos hk]
      rw [List.find?_map]
      have hfun : ((fun kv : String × List ForecastPeriod => kv.1 == d) ∘
          fun kv => if kv.1 == dateKey p then (kv.1, kv.2 ++ [p]) else kv) =
          fun kv : String × List ForecastPeriod => kv.1 == d := by
        funext kv
        by_cases hkv : kv.1 = dateKey p <;> simp [hkv]
      rw [hfun, ih]
      by_cases hdk : dateKey p = d
      · subst hdk
        rw [if_pos hk', if_pos (by simp [List.map_append]), hfilter]
        simp
      · have hbeq : (dateKey p == d) = false := by simpa using hdk
        have hmem : d ∈ (ps ++ [p]).map dateKey ↔ d ∈ ps.map dateKey := by
          simp only [List.map_append, List.map_singleton, List.mem_append,
            List.mem_singleton]
          constructor
          · rintro (h | h)
            · exact h
            · exact absurd h.symm hdk
          · exact Or.inl
        rw [hfilter, hbeq]
        simp only [Bool.false_eq_true, if_false, List.append_nil]
        by_cases hd : d ∈ ps.map dateKey
        · rw [if_pos hd, if_pos (hmem.mpr hd)]
          have : (d == dateKey p) = false := by
            simpa using fun he => hdk he.symm
          simp only [Option.map_some', this, Bool.false_eq_true, if_false]
        · rw [if_neg hd, if_neg (fun hin => hd (hmem.mp hin))]
          rfl
    · have hk' : dateKey p ∉ ps.map dateKey := by
        rw [keys_groupHourlyByDay] at hk
        exact fun hm => hk (List.elem_iff.mpr ((mem_firstEncounter _ _).mpr hm))
      rw [insertHourlyPeriod, if_neg hk]
      rw [List.find?_append, ih]
      by_cases hdk : dateKey p = d
      · subst hdk
        rw [if_neg hk', if_pos (by simp [List.map_append]), hfilter]
        have hnil : (ps.filter fun q => dateKey q == dateKey p) = [] := by
          rw [List.filter_eq_nil_iff]
          intro q hq
          have : dateKey q ≠ dateKey p :=
            fun he => hk' (he ▸ List.mem_map_of_mem dateKey hq)
          simp [this]
        rw [hnil]
        simp [List.find?]
      · have hbeq : (dateKey p == d) = false := by simpa using hdk
        have hmem : d ∈ (ps ++ [p]).map dateKey ↔ d ∈ ps.map dateKey := by
          simp only [List.map_append, List.map_singleton, List.mem_append,
            List.mem_singleton]
          constructor
          · rintro (h | h)
            · exact h
            · exact absurd h.symm hdk
          · exact Or.inl
        rw [hfilter, hbeq]
        simp only [Bool.false_eq_true, if_false, List.append_nil]
        have hsingle : List.find? (fun kv : String × List ForecastPeriod => kv.1 == d)
            [(dateKey p, [p])] = none := by
          simp [List.find?, hbeq]
        rw [hsingle]
        by_cases hd : d ∈ ps.map dateKey
        · rw [if_pos hd, if_pos (hmem.mpr hd)]
          rfl
        · rw [if_neg hd, if_neg (fun hin => hd (hmem.mp hin))]
          rfl

theorem hourlyFor_groupHourlyByDay (ps : List ForecastPeriod) (d : String) :
    hourlyFor (groupHourlyByDay ps) d = ps.filter fun p => dateKey p == d := by
  unfold hourlyFor
  rw [find?_groupHourlyByDay]
  by_cases hd : d ∈ ps.map dateKey
  · simp [hd]
  · have hnil : (ps.filter fun p => dateKey p == d) = [] := by
      rw [List.filter_eq_nil_iff]
      intro q hq
      have : dateKey q ≠ d := fun he => hd (he ▸ List.mem_map_of_mem dateKey hq)
      simp [this]
    simp [hd, hnil]

theorem find?_self_of_nodup_keys {α : Type} {l : List (String × α)} {kv : String × α}
    (h : kv ∈ l) (hnd : (l.map Prod.fst).Nodup) :
    l.find? (fun x => x.1 == kv.1) = some kv := by
  induction l with
  | nil => cases h
  | cons a l ih =>
    rw [List.map_cons, List.nodup_cons] at hnd
    rcases List.mem_cons.mp h with rfl | hmem
    · simp [List.find?]
    · have hne : (a.1 == kv.1) = false := by
        refine beq_eq_false_iff_ne.mpr fun he => hnd.1 ?_
        exact he ▸ List.mem_map_of_mem Prod.fst hmem
      simp only [List.find?, hne]
      exact ih hmem hnd.2

/-- Every entry of the 7-day forecast is `mkForecastEntry` applied to its
date's bucket, whose halves are the last day/night periods of that date. -/
theorem mem_fetchWeatherForecast {ps hs : List ForecastPeriod} {e : DayEntry}
    (he : e ∈ fetchWeatherForecast ps hs) :
    e.date ∈ ps.map dateKey ∧
    e = mkForecastEntry (groupHourlyByDay hs)
        (e.date, ⟨dayHalf ps e.date, nightHalf ps e.date⟩) := by
  unfold fetchWeatherForecast at he
  obtain ⟨kv, hkv, hmk⟩ := List.mem_map.mp he
  have hkvG : kv ∈ groupForecastByDay ps := List.take_subset 7 _ hkv
  have hnd : ((groupForecastByDay ps).map Prod.fst).Nodup := by
    rw [keys_groupForecastByDay]
    exact nodup_firstEncounter _
  have hfind := find?_self_of_nodup_keys hkvG hnd
  rw [find?_groupForecastByDay] at hfind
  by_cases hd : kv.1 ∈ ps.map dateKey
  · rw [if_pos hd] at hfind
    have hkveq : (kv.1, (⟨dayHalf ps kv.1, nightHalf ps kv.1⟩ : DayBucket)) = kv :=
      Option.some.inj hfind
    have hdate : e.date = kv.1 := by
      rw [← hmk]
      rfl
    constructor
    · rw [hdate]
      exact hd
    · rw [hdate, ← hmk]
      congr 1
      exact hkveq.symm
  · rw [if_neg hd] at hfind
    exact absurd hfind (by simp)

theorem half_some_of_mem {ps : List ForecastPeriod} {d : String}
    (h : d ∈ ps.map dateKey) :
    (dayHalf ps d).isSome = true ∨ (nightHalf ps d).isSome = true := by
  obtain ⟨p, hp, hkey⟩ := List.mem_map.mp h
  cases hdt : p.isDaytime
  · right
    have hmem : p ∈ ps.filter fun q => dateKey q == d && !q.isDaytime := by
      rw [List.mem_filter]
      exact ⟨hp, by simp [hkey, hdt]⟩
    have hne := List.ne_nil_of_mem hmem
    unfold nightHalf
    rwa [List.getLast?_isSome]
  · left
    have hmem : p ∈ ps.filter fun q => dateKey q == d && q.isDaytime := by
      rw [List.mem_filter]
      exact ⟨hp, by simp [hkey, hdt]⟩
    have hne := List.ne_nil_of_mem hmem
    unfold dayHalf
    rwa [List.getLast?_isSome]

theorem mem_of_dayHalf_eq_some {ps : List ForecastPeriod} {d : String}
    {p : ForecastPeriod} (h : dayHalf ps d = some p) : p ∈ ps := by
  unfold dayHalf at h
  exact List.mem_of_mem_filter (List.mem_of_mem_getLast? h)

theorem mem_of_nightHalf_eq_some {ps : List ForecastPeriod} {d : String}
    {p : ForecastPeriod} (h : nightHalf ps d = some p) : p ∈ ps := by
  unfold nightHalf at h
  exact List.mem_of_mem_filter (List.mem_of_mem_getLast? h)

theorem jsOrQ_some_zero (t : ℚ) : jsOrQ (some t) 0 = t := by
  by_cases h : t = 0 <;> simp [jsOrQ, h]

theorem jsOrQ_nonneg {o : Option ℚ} (h : ∀ v, o = some v → 0 ≤ v) :
    0 ≤ jsOrQ o 0 := by
  cases o with
  | none => simp [jsOrQ]
  | some v =>
    by_cases hv : v = 0
    · simp [jsOrQ, hv]
    · simpa [jsOrQ, hv] using h v rfl

/-! ## C5 — forecast grouping, truncation and half synthesis -/

/-- A sample NWS period for a given date. -/
def examplePeriod (d : String) (daytime : Bool) (t : ℚ) : ForecastPeriod :=
  { startTime := d ++ "T06:00:00-05:00", isDaytime := daytime, temperature := t,
    shortForecast := "Sunny", probabilityOfPrecipitation := some 20 }

/-- 14 periods spanning 8 calendar dates: the first date has only a night
half, the last only a day half. -/
def example14 : List ForecastPeriod :=
  [examplePeriod "2026-03-01" false 35,
   examplePeriod "2026-03-02" true 50, examplePeriod "2026-03-02" false 36,
   examplePeriod "2026-03-03" true 51, examplePeriod "2026-03-03" false 37,
   examplePeriod "2026-03-04" true 52, examplePeriod "2026-03-04" false 38,
   examplePeriod "2026-03-05" true 53, examplePeriod "2026-03-05" false 39,
   examplePeriod "2026-03-06" true 54, examplePeriod "2026-03-06" false 40,
   examplePeriod "2026-03-07" true 55, examplePeriod "2026-03-07" false 41,
   examplePeriod "2026-03-08" true 56]

/-- A date with only a day half, for the synthesized-fallback check. -/
def exampleDayOnly : List ForecastPeriod :=
  [examplePeriod "2026-03-09" true 56]

/-- C5: `fetchWeatherData` buckets forecast periods by the date-only prefix
of `startTime` (not array position): the produced dates are the first 7
distinct dates in first-encounter order; the entry count is the number of
distinct dates capped at 7; a date with only one half present synthesizes
the missing half from the present one rather than defaulting it to zero —
a night-only date gets `maxTempF = minTempF`, both the night period's
temperature, and a day-only date gets `minTempF = maxTempF`, both the day
period's temperature; hourly periods are grouped by the same key and
attached to the matching day; and the 14-period / 8-date example yields
exactly 7 entries in encounter order. -/
theorem fetchWeatherForecast_grouping :
    (∀ ps hs : List ForecastPeriod,
      (fetchWeatherForecast ps hs).map DayEntry.date =
        (firstEncounter (ps.map dateKey)).take 7) ∧
    (∀ ps hs : List ForecastPeriod,
      (fetchWeatherForecast ps hs).length =
        min (firstEncounter (ps.map dateKey)).length 7) ∧
    (∀ ps hs : List ForecastPeriod, ∀ e ∈ fetchWeatherForecast ps hs,
      (∀ p ∈ ps, dateKey p = e.date → p.isDaytime = false) →
      ∃ np, nightHalf ps e.date = some np ∧
        e.day.maxTempF = np.temperature ∧ e.day.minTempF = np.temperature) ∧
    (∀ ps hs : List ForecastPeriod, ∀ e ∈ fetchWeatherForecast ps hs,
      (∀ p ∈ ps, dateKey p = e.date → p.isDaytime = true) →
      ∃ dp, dayHalf ps e.date = some dp ∧
        e.day.maxTempF = dp.temperature ∧ e.day.minTempF = dp.temperature) ∧
    (∀ ps hs : List ForecastPeriod, ∀ e ∈ fetchWeatherForecast ps hs,
      e.hourly = (hs.filter fun p => dateKey p == e.date).map mkHourEntry) ∧
    (fetchWeatherForecast example14 []).length = 7 ∧
    (fetchWeatherForecast example14 []).map DayEntry.date =
      ["2026-03-01", "2026-03-02", "2026-03-03", "2026-03-04", "2026-03-05",
       "2026-03-06", "2026-03-07"] ∧
    (fetchWeatherForecast exampleDayOnly []).map
        (fun e => (e.day.maxTempF, e.day.minTempF)) = [(56, 56)] := by
  refine ⟨?_, ?_, ?_, ?_, ?_, by with_unfolding_all decide,
    by with_unfolding_all decide, by with_unfolding_all decide⟩
  · intro ps hs
    unfold fetchWeatherForecast
    rw [List.map_map]
    have : (DayEntry.date ∘ mkForecastEntry (groupHourlyByDay hs)) =
        (Prod.fst : String × DayBucket → String) := by
      funext kv
      rfl
    rw [this, List.map_take, keys_groupForecastByDay]
  · intro ps hs
    unfold fetchWeatherForecast
    rw [List.length_map, List.length_take, ← keys_groupForecastByDay,
      List.length_map, Nat.min_comm]
  · intro ps hs e he hnight
    obtain ⟨hdmem, hdecomp⟩ := mem_fetchWeatherForecast he
    have hday : dayHalf ps e.date = none := by
      unfold dayHalf
      have : (ps.filter fun p => dateKey p == e.date && p.isDaytime) = [] := by
        rw [List.filter_eq_nil_iff]
        intro p hp
        by_cases hk : dateKey p = e.date
        · simp [hk, hnight p hp hk]
        · simp [hk]
      rw [this]
      rfl
    have hnsome : (nightHalf ps e.date).isSome = true := by
      rcases half_some_of_mem hdmem with h | h
      · rw [hday] at h
        exact absurd h (by simp)
      · exact h
    obtain ⟨np, hnp⟩ := Option.isSome_iff_exists.mp hnsome
    refine ⟨np, hnp, ?_, ?_⟩
    · rw [hdecomp, hday, hnp]
      show jsOrQ (some np.temperature) 0 = np.temperature
      exact jsOrQ_some_zero _
    · rw [hdecomp, hday, hnp]
      show jsOrQ (some np.temperature) 0 = np.temperature
      exact jsOrQ_some_zero _
  · intro ps hs e he hdaytime
    obtain ⟨hdmem, hdecomp⟩ := mem_fetchWeatherForecast he
    have hnightn : nightHalf ps e.date = none := by
      unfold nightHalf
      have : (ps.filter fun p => dateKey p == e.date && !p.isDaytime) = [] := by
        rw [List.filter_eq_nil_iff]
        intro p hp
        by_cases hk : dateKey p = e.date
        · simp [hk, hdaytime p hp hk]
        · simp [hk]
      rw [this]
      rfl
    have hdsome : (dayHalf ps e.date).isSome = true := by
      rcases half_some_of_mem hdmem with h | h
      · exact h
      · rw [hnightn] at h
        exact absurd h (by simp)
    obtain ⟨dp, hdp⟩ := Option.isSome_iff_exists.mp hdsome
    refine ⟨dp, hdp, ?_, ?_⟩
    · rw [hdecomp, hdp, hnightn]
      show jsOrQ (some dp.temperature) 0 = dp.temperature
      exact jsOrQ_some_zero _
    · rw [hdecomp, hdp, hnightn]
      show jsOrQ (some dp.temperature) 0 = dp.temperature
      exact jsOrQ_some_zero _
  · intro ps hs e he
    obtain ⟨-, hdecomp⟩ := mem_fetchWeatherForecast he
    have h2 : e.hourly = (hourlyFor (groupHourlyByDay hs) e.date).map mkHourEntry := by
      conv_lhs => rw [hdecomp]
      rfl
    rw [h2, hourlyFor_groupHourlyByDay]

/-! ## C10 — `dailyChanceOfRain` is the max of the two halves -/

/-- C10: each forecast day's `dailyChanceOfRain` is the maximum of the
day-half and night-half `probabilityOfPrecipitation` values (missing
period or missing value counting as 0, given probabilities are
nonnegative); with only one half present it is that half's value. -/
theorem dailyChanceOfRain_max :
    ∀ (ps hs : List ForecastPeriod) (e : DayEntry),
      (∀ p ∈ ps, ∀ v, p.probabilityOfPrecipitation = some v → 0 ≤ v) →
      e ∈ fetchWeatherForecast ps hs →
      e.day.dailyChanceOfRain =
        max (popOrZero (dayHalf ps e.date)) (popOrZero (nightHalf ps e.date)) ∧
      (dayHalf ps e.date = none →
        e.day.dailyChanceOfRain = popOrZero (nightHalf ps e.date)) ∧
      (nightHalf ps e.date = none →
        e.day.dailyChanceOfRain = popOrZero (dayHalf ps e.date)) := by
  intro ps hs e hnn he
  obtain ⟨hdmem, hdecomp⟩ := mem_fetchWeatherForecast he
  cases hdh : dayHalf ps e.date with
  | some dp =>
    cases hnh : nightHalf ps e.date with
    | some np =>
      refine ⟨?_, fun h => absurd h (by simp), fun h => absurd h (by simp)⟩
      rw [hdecomp, hdh, hnh]
      rfl
    | none =>
      have hval : e.day.dailyChanceOfRain = popOrZero (some dp) := by
        rw [hdecomp, hdh, hnh]
        show max (jsOrQ (dp.probabilityOfPrecipitation) 0)
          (jsOrQ (dp.probabilityOfPrecipitation) 0) = _
        rw [max_self]
        rfl
      have hnonneg : 0 ≤ popOrZero (some dp) := by
        unfold popOrZero
        exact jsOrQ_nonneg fun v hv =>
          hnn dp (mem_of_dayHalf_eq_some hdh) v (by simpa using hv)
      refine ⟨?_, fun h => absurd h (by simp), fun _ => hval⟩
      rw [hval]
      show popOrZero (some dp) = max (popOrZero (some dp)) (popOrZero none)
      rw [show popOrZero none = 0 from rfl]
      exact (max_eq_left hnonneg).symm
  | none =>
    cases hnh : nightHalf ps e.date with
    | some np =>
      have hval : e.day.dailyChanceOfRain = popOrZero (some np) := by
        rw [hdecomp, hdh, hnh]
        show max (jsOrQ (np.probabilityOfPrecipitation) 0)
          (jsOrQ (np.probabilityOfPrecipitation) 0) = _
        rw [max_self]
        rfl
      have hnonneg : 0 ≤ popOrZero (some np) := by
        unfold popOrZero
        exact jsOrQ_nonneg fun v hv =>
          hnn np (mem_of_nightHalf_eq_some hnh) v (by simpa using hv)
      refine ⟨?_, fun _ => hval, fun h => absurd h (by simp)⟩
      rw [hval]
      show popOrZero (some np) = max (popOrZero none) (popOrZero (some np))
      rw [show popOrZero none = 0 from rfl]
      exact (max_eq_right hnonneg).symm
    | none =>
      exfalso
      rcases half_some_of_mem hdmem with h | h
      · rw [hdh] at h
        exact absurd h (by simp)
      · rw [hnh] at h
        exact absurd h (by simp)

/-- C10 witness: a night-only date — the daily chance of rain is that
night period's probability. -/
theorem dailyChanceOfRain_max_witness :
    (mkForecastEntry (groupHourlyByDay [])
        ("2026-03-01", ⟨none, some (examplePeriod "2026-03-01" false 35)⟩)).day.dailyChanceOfRain =
      max (popOrZero (dayHalf example14 "2026-03-01"))
        (popOrZero (nightHalf example14 "2026-03-01")) := by
  have h := dailyChanceOfRain_max example14 []
    (mkForecastEntry (groupHourlyByDay [])
      ("2026-03-01", ⟨none, some (examplePeriod "2026-03-01" false 35)⟩))
    (by with_unfolding_all decide) (by with_unfolding_all decide)
  exact h.1

/-! ## C8 — the HOURLY_WINDOW composer -/

/-- The generic fall-through sentence. -/
def fallbackSummary (name : String) : String :=
  s!"Weather data retrieved for {name}."

/-- The HOURLY_WINDOW summary sentence. -/
def hourlyWindowSummary (name : String) (avg startH endH : ℤ) : String :=
  s!"{name} will average {avg}°F from {startH}:00 to {endH}:00."

/-- The HOURLY_WINDOW card title (note: built with `||`, not `??`). -/
def hourlyWindowTitle (name : String) (ts te : ℤ) : String :=
  s!"{name} • {ts}:00-{te}:00"

/-- C8: for an HOURLY_WINDOW intent with a non-empty forecast, the
composer filters the first day's hourly entries to local hour-of-day in
`[startHour ?? 0, endHour ?? 23]` inclusive; the summary reports the
rounded average `tempF` of the filtered set, falling through to the
generic sentence when the filter is empty; and the card lists exactly the
filtered hours with per-hour temperature, condition and precip chance. -/
theorem hourlyWindow_composer :
    ∀ (getHours : String → ℤ) (intent : Intent) (wd : WeatherData)
      (d : DayEntry) (rest : List DayEntry),
      intent.intentType = .HOURLY_WINDOW →
      wd.forecast = d :: rest →
      (d.hourly.filter (fun h =>
          decide (intent.startHour.getD 0 ≤ getHours h.time) &&
          decide (getHours h.time ≤ intent.endHour.getD 23)) ≠ [] →
        generateSummaryText getHours intent wd =
          hourlyWindowSummary wd.location.name
            (jsRound (((d.hourly.filter (fun h =>
                decide (intent.startHour.getD 0 ≤ getHours h.time) &&
                decide (getHours h.time ≤ intent.endHour.getD 23))).map (·.tempF)).sum /
              (d.hourly.filter (fun h =>
                decide (intent.startHour.getD 0 ≤ getHours h.time) &&
                decide (getHours h.time ≤ intent.endHour.getD 23))).length))
            (intent.startHour.getD 0) (intent.endHour.getD 23)) ∧
      (d.hourly.filter (fun h =>
          decide (intent.startHour.getD 0 ≤ getHours h.time) &&
          decide (getHours h.time ≤ intent.endHour.getD 23)) = [] →
        generateSummaryText getHours intent wd = fallbackSummary wd.location.name) ∧
      generateCard getHours intent wd =
        some (.hourlyWindowCard
          (hourlyWindowTitle wd.location.name
            (jsOrZ intent.startHour 0) (jsOrZ intent.endHour 23))
          ((d.hourly.filter (fun h =>
              decide (intent.startHour.getD 0 ≤ getHours h.time) &&
              decide (getHours h.time ≤ intent.endHour.getD 23))).map fun h =>
            { hour := getHours h.time,
              temp := jsRound h.tempF,
              condition := h.condition,
              precipChance := h.chanceOfRain })) := by
  intro getHours intent wd d rest hit hfc
  refine ⟨?_, ?_, ?_⟩
  · intro hne
    have hlen : (d.hourly.filter (fun h =>
        decide (intent.startHour.getD 0 ≤ getHours h.time) &&
        decide (getHours h.time ≤ intent.endHour.getD 23))).length > 0 :=
      List.length_pos.mpr hne
    simp only [generateSummaryText, hit, hfc]
    rw [if_pos hlen]
    rfl
  · intro hnil
    simp only [generateSummaryText, hit, hfc]
    rw [hnil]
    simp [fallbackSummary]
  · simp only [generateCard, hit, hfc]
    rfl

/-- Concrete data for the C8 witness. -/
def hourEntryAt (t : String) (temp : ℚ) : HourEntry :=
  { time := t, tempF := temp, tempC := 0, condition := "Clear", conditionIcon := "",
    windSpeed := "5 mph", windDirection := "N", humidity := 50, chanceOfRain := 10,
    dewPointF := none, dewPointC := none }

def c8Day : DayEntry :=
  { date := "2026-03-01",
    day := { maxTempF := 60, maxTempC := 0, minTempF := 40, minTempC := 0,
             avgTempF := 50, avgTempC := 0, condition := "Clear", conditionIcon := "",
             detailedForecast := "", windSpeed := "5 mph", windDirection := "N",
             dailyChanceOfRain := 10 },
    hourly := [hourEntryAt "h9" 60, hourEntryAt "h20" 80] }

def c8Weather : WeatherData :=
  { location := { name := "Testville" },
    current := {},
    forecast := [c8Day] }

def c8Intent : Intent :=
  { intentType := .HOURLY_WINDOW, locationProvided := true,
    location := some "Testville", startHour := some 9, endHour := some 17 }

/-- The hour oracle for the witness: `"h9"` is 9 o'clock local, `"h20"` 20. -/
def c8Hours : String → ℤ := fun t => if t == "h9" then 9 else 20

/-- C8 witness: the 9–17 window keeps only the 9-o'clock entry; the
summary averages it and the card lists exactly it. -/
theorem hourlyWindow_composer_witness :
    generateSummaryText c8Hours c8Intent c8Weather =
      hourlyWindowSummary "Testville" 60 9 17 ∧
    generateCard c8Hours c8Intent c8Weather =
      some (.hourlyWindowCard (hourlyWindowTitle "Testville" 9 17)
        [{ hour := 9, temp := 60, condition := "Clear", precipChance := 10 }]) := by
  have h := hourlyWindow_composer c8Hours c8Intent c8Weather c8Day [] rfl rfl
  constructor
  · have h1 := h.1 (by decide)
    rw [h1]
    congr 1
    simp +decide [c8Day, c8Intent, c8Hours, hourEntryAt, List.filter]
    norm_num [jsRound]
  · have h3 := h.2.2
    rw [h3]
    simp +decide [c8Day, c8Intent, c8Hours, hourEntryAt, List.filter, jsOrZ, hourlyWindowTitle]
    norm_num [jsRound]

/-! ## C6 / C7 — the disambiguation branches of the handler -/

theorem length_mkDisambigOptions (rs : List GeocodeCandidate) :
    (mkDisambigOptions rs).length = rs.length := by
  simp [mkDisambigOptions]

theorem index_mkDisambigOptions (rs : List GeocodeCandidate) :
    (mkDisambigOptions rs).map DisambigOption.index = List.range rs.length := by
  unfold mkDisambigOptions
  rw [List.map_map]
  have : (DisambigOption.index ∘ fun p : ℕ × GeocodeCandidate =>
      ({ index := p.1, name := placeName p.2.address "Unknown",
         region := jsOrStr p.2.address.state "", country := jsOrStr p.2.address.country "USA",
         displayName := p.2.displayName, lat := p.2.lat, lon := p.2.lon } : DisambigOption)) =
      Prod.fst := by
    funext p
    rfl
  rw [this, List.enum_map_fst]

/-- With an extracted intent naming a specific location, the handler
reaches the named-location resolution step. -/
theorem lookupHandler_named (env : LookupEnv) (getHours : String → ℤ) (intent : Intent)
    (cl : Option CurrentLoc) (sel : Option ℤ)
    (hext : env.extractedIntent = some intent)
    (hprov : intent.locationProvided = true)
    (hns : isNonSpecificLocation (trimStr (intent.location.getD "")) = false)
    (htok : trimStr (intent.location.getD "") ≠ "") :
    lookupHandler env true getHours cl sel none =
      resolveNamedLocation env getHours intent (trimStr (intent.location.getD ""))
        sel true := by
  have hbeq : (trimStr (intent.location.getD "") == "") = false :=
    beq_eq_false_iff_ne.mpr htok
  simp [lookupHandler, hext, hprov, hns, hbeq]

/-- C6: with no prior selection, a non-state-level first candidate and
more than one distinct place name among several candidates, the handler
returns a disambiguation response echoing the intent, with at most 5
locations indexed 0,1,2,…; with a single candidate or a single distinct
name it proceeds with candidate 0 instead. -/
theorem lookupHandler_multiMatch :
    ∀ (env : LookupEnv) (getHours : String → ℤ) (intent : Intent)
      (firstResult : GeocodeCandidate) (rest : List GeocodeCandidate)
      (cl : Option CurrentLoc) (lq : String),
      lq = trimStr (intent.location.getD "") →
      env.extractedIntent = some intent →
      intent.locationProvided = true →
      isNonSpecificLocation lq = false →
      lq ≠ "" →
      env.searchResults = firstResult :: rest →
      isStateLevelQuery lq firstResult = false →
      ((rest ≠ [] ∧ 1 < (firstEncounter ((firstResult :: rest).map fun r =>
            placeName r.address "Unknown")).length) →
        lookupHandler env true getHours cl none none =
          { response := .disambiguation lq
              (mkDisambigOptions ((firstResult :: rest).take 5)) intent none,
            extractorCalled := true, weatherFetched := false } ∧
        (mkDisambigOptions ((firstResult :: rest).take 5)).length ≤ 5 ∧
        (mkDisambigOptions ((firstResult :: rest).take 5)).map DisambigOption.index =
          List.range (mkDisambigOptions ((firstResult :: rest).take 5)).length) ∧
      ((rest = [] ∨ (firstEncounter ((firstResult :: rest).map fun r =>
            placeName r.address "Unknown")).length ≤ 1) →
        lookupHandler env true getHours cl none none =
          proceedWithCandidate env getHours intent lq true firstResult) := by
  intro env getHours intent firstResult rest cl lq hlq hext hprov hns htok hres hsl
  subst hlq
  have hbr := lookupHandler_named env getHours intent cl none hext hprov hns htok
  constructor
  · rintro ⟨hrest, hdist⟩
    have hlen2 : (firstResult :: rest).length > 1 := by
      cases rest with
      | nil => exact absurd rfl hrest
      | cons a l => simp
    have hb1 : decide ((firstResult :: rest).length > 1) = true := decide_eq_true hlen2
    have hb2 : decide ((firstEncounter ((firstResult :: rest).map fun r =>
        placeName r.address "Unknown")).length > 1) = true := decide_eq_true hdist
    refine ⟨?_, ?_, ?_⟩
    · rw [hbr]
      simp [resolveNamedLocation, hres, hsl, hb1, hb2]
      intro h'
      exact absurd (h' (List.length_pos.mpr hrest)) (not_le.mpr hdist)
    · rw [length_mkDisambigOptions]
      exact List.length_take_le 5 _
    · rw [length_mkDisambigOptions, index_mkDisambigOptions]
  · intro hcase
    rw [hbr]
    rcases hcase with hrest | hdist
    · subst hrest
      simp [resolveNamedLocation, hres, hsl]
    · have hb : decide ((firstEncounter ((firstResult :: rest).map fun r =>
          placeName r.address "Unknown")).length > 1) = false :=
        decide_eq_false (not_lt.mpr hdist)
      simp [resolveNamedLocation, hres, hsl, hb]
      have hcond : ¬(0 < rest.length ∧ 1 < (firstEncounter
          (placeName firstResult.address "Unknown" ::
            (rest.map fun r => placeName r.address "Unknown"))).length) := by
        rintro ⟨-, h1⟩
        have hdist' : (firstEncounter (placeName firstResult.address "Unknown" ::
            (rest.map fun r => placeName r.address "Unknown"))).length ≤ 1 := by
          simpa using hdist
        exact absurd h1 (not_lt.mpr hdist')
      rw [if_neg hcond, if_neg (by omega)]

theorem citiesFilter_mem :
    ∀ (rs : List GeocodeCandidate) (sn : String) (seen : List String)
      (c : GeocodeCandidate), c ∈ citiesFilter rs sn seen →
      c ∈ rs ∧ ∃ nm, cityName c.address = some nm ∧ nm ∉ seen ∧
        c.address.state = some sn := by
  intro rs
  induction rs with
  | nil => intro sn seen c h; cases h
  | cons r rest ih =>
    intro sn seen c h
    unfold citiesFilter at h
    cases hcn : cityName r.address with
    | none =>
      rw [hcn] at h
      obtain ⟨h1, nm, h2⟩ := ih sn seen c h
      exact ⟨List.mem_cons_of_mem _ h1, nm, h2⟩
    | some city =>
      rw [hcn] at h
      by_cases hst : (r.address.state == some sn)
      · rw [hst] at h
        simp only [Bool.not_true, Bool.false_eq_true, if_false] at h
        by_cases hseen : seen.contains city
        · rw [if_pos hseen] at h
          obtain ⟨h1, nm, h2⟩ := ih sn seen c h
          exact ⟨List.mem_cons_of_mem _ h1, nm, h2⟩
        · rw [if_neg hseen] at h
          rcases List.mem_cons.mp h with rfl | hmem
          · exact ⟨List.mem_cons_self _ _, city, hcn,
              fun hm => hseen (List.elem_iff.mpr hm), beq_iff_eq.mp hst⟩
          · obtain ⟨h1, nm, hnm, hns, hstc⟩ := ih sn (city :: seen) c hmem
            exact ⟨List.mem_cons_of_mem _ h1, nm, hnm,
              fun hm => hns (List.mem_cons_of_mem _ hm), hstc⟩
      · have hst' : (r.address.state == some sn) = false := by
          simpa using hst
        rw [hst'] at h
        simp only [Bool.not_false, if_true] at h
        obtain ⟨h1, nm, h2⟩ := ih sn seen c h
        exact ⟨List.mem_cons_of_mem _ h1, nm, h2⟩

theorem citiesFilter_names_pairwise :
    ∀ (rs : List GeocodeCandidate) (sn : String) (seen : List String),
      (citiesFilter rs sn seen).Pairwise
        (fun a b => cityName a.address ≠ cityName b.address) := by
  intro rs
  induction rs with
  | nil => intro sn seen; exact List.Pairwise.nil
  | cons r rest ih =>
    intro sn seen
    unfold citiesFilter
    cases hcn : cityName r.address with
    | none => exact ih sn seen
    | some city =>
      by_cases hst : (r.address.state == some sn)
      · rw [hst]
        simp only [Bool.not_true, Bool.false_eq_true, if_false]
        by_cases hseen : seen.contains city
        · rw [if_pos hseen]
          exact ih sn seen
        · rw [if_neg hseen]
          refine List.pairwise_cons.mpr ⟨?_, ih sn (city :: seen)⟩
          intro x hx
          obtain ⟨-, nm, hnm, hns, -⟩ := citiesFilter_mem rest sn (city :: seen) x hx
          rw [hcn, hnm]
          intro he
          cases he
          exact hns (List.mem_cons_self _ _)
      · have hst' : (r.address.state == some sn) = false := by
          simpa using hst
        rw [hst']
        simp only [Bool.not_false, if_true]
        exact ih sn seen

theorem citiesFilter_complete :
    ∀ (rs : List GeocodeCandidate) (sn : String) (seen : List String)
      (r : GeocodeCandidate), r ∈ rs → ∀ nm, cityName r.address = some nm →
      r.address.state = some sn → nm ∉ seen →
      ∃ c ∈ citiesFilter rs sn seen, cityName c.address = some nm := by
  intro rs
  induction rs with
  | nil => intro sn seen r hr; cases hr
  | cons r' rest ih =>
    intro sn seen r hr nm hnm hst hnseen
    unfold citiesFilter
    rcases List.mem_cons.mp hr with rfl | hmem
    · rw [hnm]
      have hst' : (r.address.state == some sn) = true := beq_iff_eq.mpr hst
      rw [hst']
      simp only [Bool.not_true, Bool.false_eq_true, if_false]
      rw [if_neg (by simpa using hnseen)]
      exact ⟨r, List.mem_cons_self _ _, hnm⟩
    · cases hcn : cityName r'.address with
      | none => exact ih sn seen r hmem nm hnm hst hnseen
      | some city =>
        by_cases hst2 : (r'.address.state == some sn)
        · rw [hst2]
          simp only [Bool.not_true, Bool.false_eq_true, if_false]
          by_cases hseen : seen.contains city
          · rw [if_pos hseen]
            exact ih sn seen r hmem nm hnm hst hnseen
          · rw [if_neg hseen]
            by_cases hcity : nm = city
            · subst hcity
              exact ⟨r', List.mem_cons_self _ _, hcn⟩
            · obtain ⟨c, hc1, hc2⟩ := ih sn (city :: seen) r hmem nm hnm hst
                (fun hm => by
                  rcases List.mem_cons.mp hm with he | he
                  · exact hcity he
                  · exact hnseen he)
              exact ⟨c, List.mem_cons_of_mem _ hc1, hc2⟩
        · have hst2' : (r'.address.state == some sn) = false := by
            simpa using hst2
          rw [hst2']
          simp only [Bool.not_false, if_true]
          exact ih sn seen r hmem nm hnm hst hnseen

/-- C7: with a state-level first candidate and no selection, the handler
runs the secondary city search; its results are filtered to exact state
matches exposing a city/town/village name, deduplicated by that name and
capped at 5; a non-empty set yields a disambiguation response with the
echoed intent and detected state name, an empty set yields
`LOCATION_TOO_BROAD`; weather is never fetched on this path. -/
theorem lookupHandler_stateLevel :
    ∀ (env : LookupEnv) (getHours : String → ℤ) (intent : Intent)
      (firstResult : GeocodeCandidate) (rest : List GeocodeCandidate)
      (cl : Option CurrentLoc) (lq stateName : String),
      lq = trimStr (intent.location.getD "") →
      stateName = jsOrStr firstResult.address.state lq →
      env.extractedIntent = some intent →
      intent.locationProvided = true →
      isNonSpecificLocation lq = false →
      lq ≠ "" →
      env.searchResults = firstResult :: rest →
      isStateLevelQuery lq firstResult = true →
      (((citiesFilter env.citySearchResults stateName []).take 5 = [] →
        lookupHandler env true getHours cl none none =
          { response := .jsonError 400 "LOCATION_TOO_BROAD",
            extractorCalled := true, weatherFetched := false }) ∧
      ((citiesFilter env.citySearchResults stateName []).take 5 ≠ [] →
        lookupHandler env true getHours cl none none =
          { response := .disambiguation lq
              (mkDisambigOptions
                ((citiesFilter env.citySearchResults stateName []).take 5))
              intent (some stateName),
            extractorCalled := true, weatherFetched := false }) ∧
      (lookupHandler env true getHours cl none none).weatherFetched = false ∧
      ((citiesFilter env.citySearchResults stateName []).take 5).length ≤ 5 ∧
      (∀ c ∈ (citiesFilter env.citySearchResults stateName []).take 5,
        c ∈ env.citySearchResults ∧ c.address.state = some stateName ∧
          (cityName c.address).isSome = true) ∧
      ((citiesFilter env.citySearchResults stateName []).take 5).Pairwise
        (fun a b => cityName a.address ≠ cityName b.address) ∧
      (∀ r ∈ env.citySearchResults, ∀ nm, cityName r.address = some nm →
        r.address.state = some stateName →
        ∃ c ∈ citiesFilter env.citySearchResults stateName [],
          cityName c.address = some nm) ∧
      (mkDisambigOptions
          ((citiesFilter env.citySearchResults stateName []).take 5)).map
            DisambigOption.index =
        List.range ((citiesFilter env.citySearchResults stateName []).take 5).length) := by
  intro env getHours intent firstResult rest cl lq stateName hlq hsn hext hprov hns htok
    hres hsl
  subst hlq
  subst hsn
  have hbr := lookupHandler_named env getHours intent cl none hext hprov hns htok
  have hred : lookupHandler env true getHours cl none none =
      (if ((citiesFilter env.citySearchResults
            (jsOrStr firstResult.address.state (trimStr (intent.location.getD ""))) []).take 5).isEmpty
        then { response := .jsonError 400 "LOCATION_TOO_BROAD",
               extractorCalled := true, weatherFetched := false }
        else { response := .disambiguation (trimStr (intent.location.getD ""))
                 (mkDisambigOptions ((citiesFilter env.citySearchResults
                   (jsOrStr firstResult.address.state (trimStr (intent.location.getD ""))) []).take 5))
                 intent (some (jsOrStr firstResult.address.state (trimStr (intent.location.getD "")))),
               extractorCalled := true, weatherFetched := false } : HandlerResult) := by
    rw [hbr]
    simp [resolveNamedLocation, hres, hsl]
  refine ⟨?_, ?_, ?_, ?_, ?_, ?_, ?_, ?_⟩
  · intro hnil
    rw [hred, if_pos (List.isEmpty_iff.mpr hnil)]
  · intro hne
    rw [hred, if_neg (fun hemp => hne (List.isEmpty_iff.mp hemp))]
  · rw [hred]
    by_cases he : ((citiesFilter env.citySearchResults
        (jsOrStr firstResult.address.state (trimStr (intent.location.getD ""))) []).take 5).isEmpty
    · rw [if_pos he]
    · rw [if_neg he]
  · exact List.length_take_le 5 _
  · intro c hc
    obtain ⟨h1, nm, hnm, -, hstc⟩ := citiesFilter_mem _ _ _ c (List.take_subset 5 _ hc)
    exact ⟨h1, hstc, by simp [hnm]⟩
  · exact (citiesFilter_names_pairwise _ _ _).sublist (List.take_sublist 5 _)
  · intro r hr nm hnm hst
    exact citiesFilter_complete _ _ [] r hr nm hnm hst (by simp)
  · rw [index_mkDisambigOptions]

/-! ## Concrete fixtures for the route-level claims and witnesses -/

/-- A constant local-hour oracle. -/
def hoursZero : String → ℤ := fun _ => 0

/-- The weather oracle: `fetchWeatherData` tags the result with the
location name it was given. -/
def wxOracle : ℚ → ℚ → String → WeatherData := fun lat lon nm =>
  { location := { name := nm, latitude := lat, longitude := lon },
    current := { tempF := 62, condition := "Cloudy", windMph := 8, humidity := 70,
                 precipChance := 15 },
    forecast := [] }

def springfieldIntent : Intent :=
  { intentType := .CURRENT, locationProvided := true, location := some "springfield" }

def springfieldILCand : GeocodeCandidate :=
  { displayName := "Springfield, Sangamon County, Illinois, United States",
    lat := 39, lon := -89,
    address := { city := some "Springfield", state := some "Illinois",
                 country := some "United States" },
    placeId := some 101 }

def eugeneORCand : GeocodeCandidate :=
  { displayName := "Eugene, Lane County, Oregon, United States",
    lat := 44, lon := -123,
    address := { city := some "Eugene", state := some "Oregon",
                 country := some "United States" },
    placeId := some 102 }

def c6Env : LookupEnv :=
  { extractedIntent := some springfieldIntent,
    searchResults := [springfieldILCand, eugeneORCand],
    citySearchResults := [],
    fetchWeather := wxOracle }

/-- C6 witness: two candidates with distinct place names, no selection —
the instantiated conclusion of `lookupHandler_multiMatch`. -/
theorem lookupHandler_multiMatch_witness :
    (([eugeneORCand] ≠ [] ∧ 1 < (firstEncounter
        (([springfieldILCand, eugeneORCand]).map fun r =>
          placeName r.address "Unknown")).length) →
      lookupHandler c6Env true hoursZero none none none =
        { response := .disambiguation "springfield"
            (mkDisambigOptions (([springfieldILCand, eugeneORCand]).take 5))
            springfieldIntent none,
          extractorCalled := true, weatherFetched := false } ∧
      (mkDisambigOptions (([springfieldILCand, eugeneORCand]).take 5)).length ≤ 5 ∧
      (mkDisambigOptions (([springfieldILCand, eugeneORCand]).take 5)).map
          DisambigOption.index =
        List.range (mkDisambigOptions
          (([springfieldILCand, eugeneORCand]).take 5)).length) ∧
    (([eugeneORCand] = [] ∨ (firstEncounter
        (([springfieldILCand, eugeneORCand]).map fun r =>
          placeName r.address "Unknown")).length ≤ 1) →
      lookupHandler c6Env true hoursZero none none none =
        proceedWithCandidate c6Env hoursZero springfieldIntent "springfield" true
          springfieldILCand) :=
  lookupHandler_multiMatch c6Env hoursZero springfieldIntent springfieldILCand
    [eugeneORCand] none "springfield" (by decide) rfl rfl (by decide) (by decide)
    rfl (by with_unfolding_all decide)

def texasIntent : Intent :=
  { intentType := .CURRENT, locationProvided := true, location := some "texas" }

def houstonCand : GeocodeCandidate :=
  { displayName := "Houston, Harris County, Texas, United States",
    lat := 29, lon := -95,
    address := { city := some "Houston", state := some "Texas",
                 country := some "United States" },
    placeId := some 201 }

def austinCand : GeocodeCandidate :=
  { displayName := "Austin, Travis County, Texas, United States",
    lat := 30, lon := -97,
    address := { city := some "Austin", state := some "Texas",
                 country := some "United States" },
    placeId := some 202 }

def tulsaCand : GeocodeCandidate :=
  { displayName := "Tulsa, Tulsa County, Oklahoma, United States",
    lat := 36, lon := -95,
    address := { city := some "Tulsa", state := some "Oklahoma",
                 country := some "United States" },
    placeId := some 203 }

def c7Env : LookupEnv :=
  { extractedIntent := some texasIntent,
    searchResults := [texasStateCandidate],
    citySearchResults := [houstonCand, tulsaCand, austinCand],
    fetchWeather := wxOracle }

/-- C7 witness: a state-level `"texas"` query — the instantiated
conclusion of `lookupHandler_stateLevel` (the Oklahoma candidate is
filtered out, Houston and Austin remain). -/
theorem lookupHandler_stateLevel_witness :
    (((citiesFilter c7Env.citySearchResults "Texas" []).take 5 = [] →
      lookupHandler c7Env true hoursZero none none none =
        { response := .jsonError 400 "LOCATION_TOO_BROAD",
          extractorCalled := true, weatherFetched := false }) ∧
    ((citiesFilter c7Env.citySearchResults "Texas" []).take 5 ≠ [] →
      lookupHandler c7Env true hoursZero none none none =
        { response := .disambiguation "texas"
            (mkDisambigOptions ((citiesFilter c7Env.citySearchResults "Texas" []).take 5))
            texasIntent (some "Texas"),
          extractorCalled := true, weatherFetched := false }) ∧
    (lookupHandler c7Env true hoursZero none none none).weatherFetched = false ∧
    ((citiesFilter c7Env.citySearchResults "Texas" []).take 5).length ≤ 5 ∧
    (∀ c ∈ (citiesFilter c7Env.citySearchResults "Texas" []).take 5,
      c ∈ c7Env.citySearchResults ∧ c.address.state = some "Texas" ∧
        (cityName c.address).isSome = true) ∧
    ((citiesFilter c7Env.citySearchResults "Texas" []).take 5).Pairwise
      (fun a b => cityName a.address ≠ cityName b.address) ∧
    (∀ r ∈ c7Env.citySearchResults, ∀ nm, cityName r.address = some nm →
      r.address.state = some "Texas" →
      ∃ c ∈ citiesFilter c7Env.citySearchResults "Texas" [],
        cityName c.address = some nm) ∧
    (mkDisambigOptions ((citiesFilter c7Env.citySearchResults "Texas" []).take 5)).map
        DisambigOption.index =
      List.range ((citiesFilter c7Env.citySearchResults "Texas" []).take 5).length) :=
  lookupHandler_stateLevel c7Env hoursZero texasIntent texasStateCandidate []
    none "texas" "Texas" (by decide) (by decide) rfl rfl (by decide) (by decide)
    rfl (by with_unfolding_all decide)

/-! ## C1 / C2 — the schema strips `selectedLocationIndex` and `intent` -/

def isDisambiguationResponse : LookupResponse → Bool
  | .disambiguation _ _ _ _ => true
  | _ => false

def isSuccessResponse : LookupResponse → Bool
  | .success _ _ => true
  | _ => false

/-- The second-round body of the disambiguation protocol: the original
query plus the echoed intent and the chosen index. -/
def resubmissionBody : RawLookupBody :=
  { query := some "springfield", selectedLocationIndex := some 1,
    intent := some springfieldIntent }

set_option maxRecDepth 2000 in
/-- C1: resubmitting the query with the previously returned `intent` and a
`selectedLocationIndex` does NOT skip the extractor — `lookupSchema`
declares neither field, zod strips them, so the handler re-invokes the
extraction completion and (the geocode being as ambiguous as before)
returns another disambiguation response instead of a final card; without
an API key the cached intent cannot even prevent `CONFIGURATION_ERROR`. -/
theorem lookupRoute_resubmission_reextracts :
    (lookupRoute c6Env true hoursZero resubmissionBody).extractorCalled = true ∧
    isDisambiguationResponse
      (lookupRoute c6Env true hoursZero resubmissionBody).response = true ∧
    isSuccessResponse
      (lookupRoute c6Env true hoursZero resubmissionBody).response = false ∧
    (lookupRoute c6Env false hoursZero resubmissionBody).response =
      .jsonError 500 "CONFIGURATION_ERROR" := by
  with_unfolding_all decide

def seattleIntent : Intent :=
  { intentType := .CURRENT, locationProvided := true, location := some "seattle" }

def seattleCand : GeocodeCandidate :=
  { displayName := "Seattle, King County, Washington, United States",
    lat := 47, lon := -122,
    address := { city := some "Seattle", state := some "Washington",
                 country := some "United States" },
    placeId := some 301 }

def c2Env : LookupEnv :=
  { extractedIntent := some seattleIntent,
    searchResults := [seattleCand],
    citySearchResults := [],
    fetchWeather := wxOracle }

/-- `selectedLocationIndex = 5` against a 1-candidate result set. -/
def outOfRangeBody : RawLookupBody :=
  { query := some "seattle", selectedLocationIndex := some 5,
    intent := some seattleIntent }

set_option maxRecDepth 2000 in
/-- C2: the out-of-range `selectedLocationIndex = 5` against a 1-candidate
result set is NOT rejected with `INVALID_SELECTION` — the schema strips
the field, the handler sees `undefined`, defaults to index 0 and fetches
weather, returning a success card. -/
theorem lookupRoute_outOfRange_not_rejected :
    (lookupRoute c2Env true hoursZero outOfRangeBody).response ≠
      .jsonError 400 "INVALID_SELECTION" ∧
    (lookupRoute c2Env true hoursZero outOfRangeBody).weatherFetched = true ∧
    isSuccessResponse
      (lookupRoute c2Env true hoursZero outOfRangeBody).response = true := by
  with_unfolding_all decide

end WeatherApp
